import Mathlib

/-!
Verification of the fuel-station back-office server.

This development shallowly embeds the business logic of the repository:
the tank-inventory validator (`src/utils/tank-validations.ts`), the
mounted purchases router (`src/routes/purchases.ts`), the inline
handlers of `src/index.ts` for readings (single and bulk), the daily
validation report, the price-set endpoint, and the credit endpoints
together with the (unmounted) sales router credit branch.

Conventions of the embedding:
* database rows become Lean structures with the same field names;
* monetary and litre quantities become rationals (the server computes
  on JavaScript numbers; the claims under study are exact-arithmetic
  properties of the formulas, so we use exact rationals);
* dates become natural-number day indices, since every query in the
  embedded code filters on whole-day windows;
* a Prisma query that may throw is modelled as an `Except String`
  value passed to the function that performs it;
* each HTTP handler becomes a function from the database state and the
  parsed request to the new database state paired with a result value;
  a Prisma `$transaction` is modelled by making all of its writes
  visible only in the success branch of the embedded function.
-/

namespace FuelStation

/-- Row of the `Tank` table. -/
structure Tank where
  id : Nat
  name : String
  capacityLit : ℚ
  currentLevel : ℚ
  avgUnitCost : ℚ
  fuelTypeId : Nat
  isActive : Bool
deriving Repr, DecidableEq

/-- Row of the `Pump` table. -/
structure Pump where
  id : Nat
  name : String
  fuelTypeId : Nat
  isActive : Bool
deriving Repr, DecidableEq

/-- Row of the `DailyReading` table. -/
structure DailyReading where
  id : Nat
  pumpId : Nat
  date : Nat
  openingLitres : ℚ
  closingLitres : ℚ
  pricePerLitre : ℚ
  revenue : ℚ
deriving Repr, DecidableEq

/-- Row of the `Purchase` table; `status` is the string enum of the
source, either "pending" or "unloaded". -/
structure Purchase where
  id : Nat
  tankId : Nat
  litres : ℚ
  unitCost : ℚ
  totalCost : ℚ
  status : String
  date : Nat
deriving Repr, DecidableEq

/-- Row of the `FuelType` table. -/
structure FuelType where
  id : Nat
  name : String
deriving Repr, DecidableEq

/-- Row of the `Price` table. -/
structure Price where
  id : Nat
  fuelTypeId : Nat
  perLitre : ℚ
  isActive : Bool
  createdAt : Nat
deriving Repr, DecidableEq

/-- Row of the `Client` table. -/
structure Client where
  id : Nat
  name : String
  creditLimit : ℚ
  balance : ℚ
deriving Repr, DecidableEq

/-- Row of the `ClientCredit` table; `status` is "unpaid" or "paid". -/
structure ClientCredit where
  id : Nat
  clientId : Nat
  fuelTypeId : Nat
  litres : ℚ
  pricePerLitre : ℚ
  totalAmount : ℚ
  status : String
  paymentMethod : Option String
  paidDate : Option Nat
  date : Nat
deriving Repr, DecidableEq

/-- Row of the `CashReceipt` table. -/
structure CashReceipt where
  id : Nat
  amount : ℚ
  date : Nat
deriving Repr, DecidableEq

/-- Row of the `OnlinePayment` table. -/
structure OnlinePayment where
  id : Nat
  amount : ℚ
  date : Nat
deriving Repr, DecidableEq

/-! ### Tank Inventory Guard (`TankValidator`, src/utils/tank-validations.ts)

Each method first performs `prisma.tank.findUnique`; that call may
throw, which the source catches and converts into an invalid result.
We model the outcome of the lookup as `Except String (Option Tank)`:
`Except.error msg` is a thrown database error with message `msg`,
`Except.ok none` is a missing row, `Except.ok (some tank)` a found row. -/

/-- Result shape shared by the validator methods. -/
structure TankValidationResult where
  isValid : Bool
  error : Option String
  availableCapacity : Option ℚ
  currentLevel : Option ℚ
  capacity : Option ℚ
deriving Repr, DecidableEq

/-- Result of `TankValidator.validateSale`. -/
structure SalesValidationResult where
  isValid : Bool
  canSell : Bool
  error : Option String
  availableFuel : Option ℚ
  currentLevel : Option ℚ
  capacity : Option ℚ
deriving Repr, DecidableEq

/-- Result of `TankValidator.validatePurchase`. -/
structure PurchaseValidationResult where
  isValid : Bool
  canUnload : Bool
  error : Option String
  availableSpace : Option ℚ
  currentLevel : Option ℚ
  capacity : Option ℚ
deriving Repr, DecidableEq

/-- `TankValidator.validateSale` of src/utils/tank-validations.ts.
`fetch` is the outcome of the `findUnique` call on the tank id. -/
def validateSale (fetch : Except String (Option Tank)) (litresToSell : ℚ) :
    SalesValidationResult :=
  match fetch with
  | Except.error msg =>
      { isValid := false, canSell := false,
        error := some (r"Validation error: " ++ msg),
        availableFuel := none, currentLevel := none, capacity := none }
  | Except.ok none =>
      { isValid := false, canSell := false,
        error := some (r"Tank not found"),
        availableFuel := none, currentLevel := none, capacity := none }
  | Except.ok (some tank) =>
      let currentLevel := tank.currentLevel
      let availableFuel := currentLevel
      if litresToSell ≤ 0 then
        { isValid := false, canSell := false,
          error := some (r"Litres to sell must be greater than 0"),
          availableFuel := none, currentLevel := none, capacity := none }
      else if availableFuel < litresToSell then
        { isValid := false, canSell := false,
          error := some (r"Insufficient fuel in tank"),
          availableFuel := some availableFuel,
          currentLevel := some currentLevel,
          capacity := some tank.capacityLit }
      else
        { isValid := true, canSell := true, error := none,
          availableFuel := some availableFuel,
          currentLevel := some currentLevel,
          capacity := some tank.capacityLit }

/-- `TankValidator.validatePurchase` of src/utils/tank-validations.ts. -/
def validatePurchase (fetch : Except String (Option Tank)) (litresToUnload : ℚ) :
    PurchaseValidationResult :=
  match fetch with
  | Except.error msg =>
      { isValid := false, canUnload := false,
        error := some (r"Validation error: " ++ msg),
        availableSpace := none, currentLevel := none, capacity := none }
  | Except.ok none =>
      { isValid := false, canUnload := false,
        error := some (r"Tank not found"),
        availableSpace := none, currentLevel := none, capacity := none }
  | Except.ok (some tank) =>
      let currentLevel := tank.currentLevel
      let capacity := tank.capacityLit
      let availableSpace := capacity - currentLevel
      if litresToUnload ≤ 0 then
        { isValid := false, canUnload := false,
          error := some (r"Litres to unload must be greater than 0"),
          availableSpace := none, currentLevel := none, capacity := none }
      else if availableSpace < litresToUnload then
        { isValid := false, canUnload := false,
          error := some (r"Insufficient space in tank"),
          availableSpace := some availableSpace,
          currentLevel := some currentLevel,
          capacity := some capacity }
      else
        { isValid := true, canUnload := true, error := none,
          availableSpace := some availableSpace,
          currentLevel := some currentLevel,
          capacity := some capacity }

/-- `TankValidator.validateCapacityUpdate` of src/utils/tank-validations.ts. -/
def validateCapacityUpdate (fetch : Except String (Option Tank)) (newCapacity : ℚ) :
    TankValidationResult :=
  match fetch with
  | Except.error msg =>
      { isValid := false,
        error := some (r"Validation error: " ++ msg),
        availableCapacity := none, currentLevel := none, capacity := none }
  | Except.ok none =>
      { isValid := false,
        error := some (r"Tank not found"),
        availableCapacity := none, currentLevel := none, capacity := none }
  | Except.ok (some tank) =>
      let currentLevel := tank.currentLevel
      if newCapacity ≤ 0 then
        { isValid := false,
          error := some (r"New capacity must be greater than 0"),
          availableCapacity := none, currentLevel := none, capacity := none }
      else if newCapacity < currentLevel then
        { isValid := false,
          error := some (r"New capacity cannot be less than current level"),
          availableCapacity := none,
          currentLevel := some currentLevel,
          capacity := some newCapacity }
      else
        { isValid := true, error := none,
          availableCapacity := none,
          currentLevel := some currentLevel,
          capacity := some newCapacity }

/-! ### Station database state

The server components the claims are about read and write the tables
below; each HTTP handler is embedded as a function
`DB → request → DB × result`. -/

/-- Mutable database state for the tank, pump, reading and purchase
tables, plus id allocators for the rows the handlers create. -/
structure DB where
  tanks : List Tank
  pumps : List Pump
  readings : List DailyReading
  purchases : List Purchase
  nextReadingId : Nat
  nextPurchaseId : Nat
deriving Repr, DecidableEq

/-! ### Purchase/Unload Recorder (mounted purchases router)

`createPurchasesRouter(prisma, tankValidator)` as imported by
`src/index.ts`: `POST /` creates a pending purchase after the Guard
check, `PUT /:id/unload` applies the inventory and average-cost
effect inside one transaction. -/

/-- Result of `POST /api/purchases`. -/
inductive CreatePurchaseResult where
  | badRequest
  | validationFailed
  | tankNotFound
  | created (id : Nat)
deriving Repr, DecidableEq

/-- Result of `PUT /api/purchases/:id/unload`. -/
inductive UnloadResult where
  | notFound
  | alreadyUnloaded
  | validationFailed
  | relationError
  | ok (newLevel avgUnitCost : ℚ)
deriving Repr, DecidableEq

/-- `POST /` of the purchases router: reject missing (falsy) fields,
run the Guard, then insert a `status = "pending"` purchase row with no
tank mutation. -/
def createPurchase (db : DB) (tankId : Nat) (litres unitCost : ℚ) (date : Nat) :
    DB × CreatePurchaseResult :=
  if tankId = 0 ∨ litres = 0 ∨ unitCost = 0 then (db, CreatePurchaseResult.badRequest)
  else
    let validation := validatePurchase
      (Except.ok (db.tanks.find? (fun t => t.id == tankId))) litres
    if validation.isValid = false then (db, CreatePurchaseResult.validationFailed)
    else
      match db.tanks.find? (fun t => t.id == tankId) with
      | none => (db, CreatePurchaseResult.tankNotFound)
      | some _ =>
          let purchase : Purchase :=
            { id := db.nextPurchaseId, tankId := tankId, litres := litres,
              unitCost := unitCost, totalCost := unitCost * litres,
              status := r"pending", date := date }
          ({ db with purchases := db.purchases ++ [purchase],
                     nextPurchaseId := db.nextPurchaseId + 1 },
           CreatePurchaseResult.created db.nextPurchaseId)

/-- `PUT /:id/unload` of the purchases router: refuse when the
purchase is absent or already unloaded, re-run the Guard, then in a
single transaction set `status = "unloaded"` and update the tank level
and volume-weighted average unit cost. -/
def unload (db : DB) (purchaseId : Nat) : DB × UnloadResult :=
  match db.purchases.find? (fun q => q.id == purchaseId) with
  | none => (db, UnloadResult.notFound)
  | some purchase =>
    if purchase.status = r"unloaded" then (db, UnloadResult.alreadyUnloaded)
    else
      match db.tanks.find? (fun t => t.id == purchase.tankId) with
      | none => (db, UnloadResult.relationError)
      | some tank =>
        let newLevel := tank.currentLevel + purchase.litres
        let validation := validatePurchase
          (Except.ok (db.tanks.find? (fun t => t.id == tank.id))) purchase.litres
        if validation.isValid = false then (db, UnloadResult.validationFailed)
        else
          let totalExistingCost := tank.avgUnitCost * tank.currentLevel
          let totalNewCost := purchase.unitCost * purchase.litres
          let avgUnitCost := (totalExistingCost + totalNewCost)
            / (tank.currentLevel + purchase.litres)
          ({ db with
              purchases := db.purchases.map (fun q =>
                if q.id == purchaseId then { q with status := r"unloaded" } else q),
              tanks := db.tanks.map (fun t =>
                if t.id == tank.id then
                  { t with currentLevel := newLevel, avgUnitCost := avgUnitCost }
                else t) },
           UnloadResult.ok newLevel avgUnitCost)

/-- Updating the rows matching a key and then searching for that key
finds the updated row, provided the update preserves the key. -/
theorem find?_map_update {α : Type} (idOf : α → Nat) (f : α → α)
    (hf : ∀ a, idOf (f a) = idOf a) (k : Nat) (l : List α) :
    (l.map (fun a => if idOf a == k then f a else a)).find? (fun a => idOf a == k)
      = Option.map f (l.find? (fun a => idOf a == k)) := by
  induction l with
  | nil => rfl
  | cons a tl ih =>
      by_cases h : idOf a == k
      · simp [List.find?, h, hf]
      · simp only [List.map, List.find?, if_neg h]
        rw [Bool.of_not_eq_true h]
        exact ih

end FuelStation

/-- C10: the Tank Inventory Guard methods `validateSale`,
`validatePurchase` and `validateCapacityUpdate` are total functions of
the store outcome (so callers always receive a decision); when the
underlying store lookup throws with message `msg`, each returns a
result value with `isValid = false` whose error embeds `msg`. -/
theorem C10_validator_never_throws (msg : String) (litres newCapacity : ℚ) :
    (FuelStation.validateSale (Except.error msg) litres).isValid = false
    ∧ (FuelStation.validateSale (Except.error msg) litres).error
        = some (r"Validation error: " ++ msg)
    ∧ (FuelStation.validatePurchase (Except.error msg) litres).isValid = false
    ∧ (FuelStation.validatePurchase (Except.error msg) litres).error
        = some (r"Validation error: " ++ msg)
    ∧ (FuelStation.validateCapacityUpdate (Except.error msg) newCapacity).isValid = false
    ∧ (FuelStation.validateCapacityUpdate (Except.error msg) newCapacity).error
        = some (r"Validation error: " ++ msg) :=
  ⟨rfl, rfl, rfl, rfl, rfl, rfl⟩

namespace FuelStation

/-- Concrete tank used to witness the purchase/unload theorems. -/
def wTank : Tank :=
  { id := 1, name := r"Tank 1", capacityLit := 1000, currentLevel := 500,
    avgUnitCost := 10, fuelTypeId := 1, isActive := true }

/-- Concrete pending purchase used to witness the purchase/unload theorems. -/
def wPurchase : Purchase :=
  { id := 1, tankId := 1, litres := 200, unitCost := 8, totalCost := 1600,
    status := r"pending", date := 0 }

/-- Concrete database used to witness the purchase/unload theorems. -/
def wDB : DB :=
  { tanks := [wTank], pumps := [], readings := [], purchases := [wPurchase],
    nextReadingId := 1, nextPurchaseId := 2 }

end FuelStation

open FuelStation in
/-- C4: unloading a pending purchase with enough headroom succeeds; the
new average unit cost equals
`(avgUnitCost * currentLevel + unitCost * litres) / (currentLevel + litres)`,
and in the same step the purchase status becomes "unloaded" and the
tank level grows by `litres`; moreover (second conjunct) `unload` is
atomic: on every input it either succeeds or leaves the database
exactly unchanged. -/
theorem C4_unload_avg_cost_atomic :
    (∀ (db : DB) (purchaseId : Nat) (p : Purchase) (t : Tank),
      db.purchases.find? (fun q => q.id == purchaseId) = some p →
      p.status = r"pending" →
      db.tanks.find? (fun u => u.id == p.tankId) = some t →
      0 < p.litres →
      p.litres ≤ t.capacityLit - t.currentLevel →
      unload db purchaseId =
        ({ db with
            purchases := db.purchases.map (fun q =>
              if q.id == purchaseId then { q with status := r"unloaded" } else q),
            tanks := db.tanks.map (fun u =>
              if u.id == t.id then
                { u with currentLevel := t.currentLevel + p.litres,
                         avgUnitCost := (t.avgUnitCost * t.currentLevel
                            + p.unitCost * p.litres) / (t.currentLevel + p.litres) }
              else u) },
          UnloadResult.ok (t.currentLevel + p.litres)
            ((t.avgUnitCost * t.currentLevel + p.unitCost * p.litres)
              / (t.currentLevel + p.litres))))
    ∧ (∀ (db : DB) (purchaseId : Nat),
        (∃ lvl avg, (unload db purchaseId).2 = UnloadResult.ok lvl avg)
        ∨ (unload db purchaseId).1 = db) := by
  constructor
  · intro db purchaseId p t h1 h2 h3 hpos hcap
    have htid : t.id = p.tankId := by
      have := List.find?_some h3
      simpa using this
    have hfetch : db.tanks.find? (fun u => u.id == t.id) = some t := by
      rw [htid]; exact h3
    have h5 : ¬(p.litres ≤ 0) := not_le.mpr hpos
    have h6 : ¬(t.capacityLit - t.currentLevel < p.litres) := not_lt.mpr hcap
    simp only [unload, h1, h2, h3, hfetch]
    rw [if_neg (by decide)]
    simp only [validatePurchase]
    simp [h5, h6]
  · intro db purchaseId
    cases h1 : db.purchases.find? (fun q => q.id == purchaseId) with
    | none => right; simp [unload, h1]
    | some p =>
        by_cases h2 : p.status = r"unloaded"
        · right; simp [unload, h1, h2]
        · cases h3 : db.tanks.find? (fun t => t.id == p.tankId) with
          | none => right; simp [unload, h1, h2, h3]
          | some t =>
              by_cases h4 : (validatePurchase
                  (Except.ok (db.tanks.find? (fun u => u.id == t.id))) p.litres).isValid = false
              · right; simp [unload, h1, h2, h3, h4]
              · left
                refine ⟨t.currentLevel + p.litres,
                  (t.avgUnitCost * t.currentLevel + p.unitCost * p.litres)
                    / (t.currentLevel + p.litres), ?_⟩
                simp [unload, h1, h2, h3, h4]

open FuelStation in
/-- C4 witness: in the concrete database `wDB` (tank at 500 of 1000
litres, average cost 10), unloading the pending purchase of 200 litres
at unit cost 8 succeeds with the volume-weighted average cost formula. -/
theorem C4_unload_avg_cost_witness :
    unload wDB 1 =
      ({ wDB with
          purchases := wDB.purchases.map (fun q =>
            if q.id == 1 then { q with status := r"unloaded" } else q),
          tanks := wDB.tanks.map (fun u =>
            if u.id == wTank.id then
              { u with currentLevel := wTank.currentLevel + wPurchase.litres,
                       avgUnitCost := (wTank.avgUnitCost * wTank.currentLevel
                          + wPurchase.unitCost * wPurchase.litres)
                          / (wTank.currentLevel + wPurchase.litres) }
            else u) },
        UnloadResult.ok (wTank.currentLevel + wPurchase.litres)
          ((wTank.avgUnitCost * wTank.currentLevel + wPurchase.unitCost * wPurchase.litres)
            / (wTank.currentLevel + wPurchase.litres))) :=
  C4_unload_avg_cost_atomic.1 wDB 1 wPurchase wTank rfl rfl rfl
    (by decide) (by norm_num [wPurchase, wTank])

open FuelStation in
/-- C5: a purchase transitions to "unloaded" at most once: after a
successful unload, a second unload request for the same purchase fails
with the already-processed error and leaves the database (hence the
tank level and average unit cost) unchanged. -/
theorem C5_unload_at_most_once :
    ∀ (db : DB) (purchaseId : Nat) (lvl avg : ℚ),
      (unload db purchaseId).2 = UnloadResult.ok lvl avg →
      unload (unload db purchaseId).1 purchaseId
        = ((unload db purchaseId).1, UnloadResult.alreadyUnloaded) := by
  intro db purchaseId lvl avg h
  cases h1 : db.purchases.find? (fun q => q.id == purchaseId) with
  | none => simp [unload, h1] at h
  | some p =>
      by_cases h2 : p.status = r"unloaded"
      · simp [unload, h1, h2] at h
      · cases h3 : db.tanks.find? (fun t => t.id == p.tankId) with
        | none => simp [unload, h1, h2, h3] at h
        | some t =>
            by_cases h4 : (validatePurchase
                (Except.ok (db.tanks.find? (fun u => u.id == t.id))) p.litres).isValid = false
            · simp [unload, h1, h2, h3, h4] at h
            · have hstate : (unload db purchaseId).1 =
                  { db with
                    purchases := db.purchases.map (fun q =>
                      if q.id == purchaseId then { q with status := r"unloaded" } else q),
                    tanks := db.tanks.map (fun u =>
                      if u.id == t.id then
                        { u with currentLevel := t.currentLevel + p.litres,
                                 avgUnitCost := (t.avgUnitCost * t.currentLevel
                                    + p.unitCost * p.litres) / (t.currentLevel + p.litres) }
                      else u) } := by
                simp [unload, h1, h2, h3, h4]
              set db1 := (unload db purchaseId).1 with hdb1
              have hp : db1.purchases = db.purchases.map (fun q =>
                  if q.id == purchaseId then { q with status := r"unloaded" } else q) := by
                rw [hstate]
              have hfind : db1.purchases.find? (fun q => q.id == purchaseId)
                  = some { p with status := r"unloaded" } := by
                rw [hp, find?_map_update (fun q : Purchase => q.id)
                  (fun q => { q with status := r"unloaded" }) (fun _ => rfl)
                  purchaseId db.purchases, h1]
                rfl
              simp only [unload]
              rw [hfind]
              simp

open FuelStation in
/-- C5 witness: after unloading the 200-litre purchase in `wDB`, a
second unload of the same purchase id reports it already processed and
changes nothing. -/
theorem C5_unload_at_most_once_witness :
    unload (unload wDB 1).1 1 = ((unload wDB 1).1, UnloadResult.alreadyUnloaded) :=
  C5_unload_at_most_once wDB 1 (wTank.currentLevel + wPurchase.litres)
    ((wTank.avgUnitCost * wTank.currentLevel + wPurchase.unitCost * wPurchase.litres)
      / (wTank.currentLevel + wPurchase.litres))
    (by norm_num [unload, validatePurchase, wDB, wTank, wPurchase,
      show (r"pending" : String) ≠ r"unloaded" from by decide])

namespace FuelStation

/-! ### Reading/Sale Recorder (inline handlers of src/index.ts)

`POST /api/readings` and `POST /api/readings/bulk` are registered in
`src/index.ts` before the router files are mounted, so these inline
handlers are the ones that serve requests. -/

/-- Result of `POST /api/readings`. -/
inductive ReadingResult where
  | badRequest (msg : String)
  | pumpNotFound
  | tankNotFound
  | validationFailed
  | insufficientInTx
  | created
deriving Repr, DecidableEq

/-- `POST /api/readings` of src/index.ts: validate the fields, find the
pump and the active tank of its fuel type, run the Guard on the full
`fuelSold = closingLitres - openingLitres`, then in one transaction
upsert the reading row for `(pumpId, date)` and deduct the full
`fuelSold` from the tank (the deduction is skipped, with a 400 result,
if it would drive the level negative; the reading upsert still
commits in that case, as in the source). -/
def postReading (db : DB) (pumpId : Nat) (date : Nat)
    (openingLitres closingLitres pricePerLitre : ℚ) : DB × ReadingResult :=
  if pumpId = 0 then (db, ReadingResult.badRequest (r"Invalid pump ID"))
  else if openingLitres < 0 then (db, ReadingResult.badRequest (r"Invalid opening litres"))
  else if closingLitres < 0 then (db, ReadingResult.badRequest (r"Invalid closing litres"))
  else if closingLitres < openingLitres then
    (db, ReadingResult.badRequest (r"Invalid reading values"))
  else if pricePerLitre < 0 then (db, ReadingResult.badRequest (r"Invalid price per litre"))
  else
    let fuelSold := closingLitres - openingLitres
    let calculatedRevenue := if 0 < fuelSold then fuelSold * pricePerLitre else 0
    match db.pumps.find? (fun pump => pump.id == pumpId) with
    | none => (db, ReadingResult.pumpNotFound)
    | some pump =>
      match db.tanks.find? (fun t => t.fuelTypeId == pump.fuelTypeId && t.isActive) with
      | none => (db, ReadingResult.tankNotFound)
      | some tank =>
        if 0 < fuelSold ∧ (validateSale
            (Except.ok (db.tanks.find? (fun t => t.id == tank.id))) fuelSold).isValid = false
        then (db, ReadingResult.validationFailed)
        else
          let upserted : List DailyReading × Nat :=
            match db.readings.find? (fun rr => rr.pumpId == pumpId && rr.date == date) with
            | some existing =>
                (db.readings.map (fun rr =>
                  if rr.id == existing.id then
                    { rr with openingLitres := openingLitres, closingLitres := closingLitres,
                              pricePerLitre := pricePerLitre, revenue := calculatedRevenue }
                  else rr), db.nextReadingId)
            | none =>
                (db.readings ++
                  [{ id := db.nextReadingId, pumpId := pumpId, date := date,
                     openingLitres := openingLitres, closingLitres := closingLitres,
                     pricePerLitre := pricePerLitre, revenue := calculatedRevenue }],
                 db.nextReadingId + 1)
          if 0 < fuelSold then
            let newTankLevel := tank.currentLevel - fuelSold
            if newTankLevel < 0 then
              ({ db with readings := upserted.1, nextReadingId := upserted.2 },
               ReadingResult.insufficientInTx)
            else
              ({ db with
                  readings := upserted.1, nextReadingId := upserted.2,
                  tanks := db.tanks.map (fun t =>
                    if t.id == tank.id then { t with currentLevel := newTankLevel } else t) },
               ReadingResult.created)
          else
            ({ db with readings := upserted.1, nextReadingId := upserted.2 },
             ReadingResult.created)

/-- One entry of the `readings` array accepted by `POST /api/readings/bulk`
(the bulk handler stores the client-supplied `revenue`, defaulting to 0). -/
structure BulkReadingInput where
  pumpId : Nat
  date : Nat
  openingLitres : ℚ
  closingLitres : ℚ
  pricePerLitre : ℚ
  revenue : ℚ
deriving Repr, DecidableEq

/-- Result of `POST /api/readings/bulk`. -/
inductive BulkResult where
  | badRequest (msg : String)
  | pumpNotFound
  | insufficientFuel
  | ok
deriving Repr, DecidableEq

/-- `MAX_READINGS_PER_REQUEST` of src/index.ts. -/
def MAX_READINGS_PER_REQUEST : Nat := 50

/-- Per-row validation loop of the bulk handler: the error message of
the first invalid row, if any, checked before anything is written. -/
def validateBulkRows : List BulkReadingInput → Option String
  | [] => none
  | row :: rest =>
      if row.pumpId = 0 then some (r"Invalid pump ID")
      else if row.openingLitres < 0 then some (r"Invalid opening litres")
      else if row.closingLitres < 0 then some (r"Invalid closing litres")
      else if row.closingLitres < row.openingLitres then
        some (r"Invalid reading values")
      else validateBulkRows rest

/-- `fuelTypeTotals[fid] = (fuelTypeTotals[fid] || 0) + net`, keeping
insertion order as a JavaScript object with numeric keys does. -/
def addTotal : List (Nat × ℚ) → Nat → ℚ → List (Nat × ℚ)
  | [], fuelTypeId, net => [(fuelTypeId, net)]
  | (k, x) :: rest, fuelTypeId, net =>
      if k = fuelTypeId then (k, x + net) :: rest
      else (k, x) :: addTotal rest fuelTypeId net

/-- First pass of the bulk handler: walk the rows, look each row up in
the map of pre-existing readings (fetched once, for the day of the
first row) to compute the net fuel sold, upsert the row (these writes
are not inside a transaction and stay committed), and accumulate net
totals per fuel type.  A missing pump aborts the loop, returning the
readings written so far (`Sum.inr`). -/
def bulkFirstPass (pumps : List Pump) (readings0 : List DailyReading) (firstDate : Nat) :
    List BulkReadingInput → List DailyReading → Nat → List (Nat × ℚ) →
    (List DailyReading × Nat × List (Nat × ℚ)) ⊕ (List DailyReading × Nat)
  | [], readings, nextId, totals => Sum.inl (readings, nextId, totals)
  | row :: rest, readings, nextId, totals =>
    match pumps.find? (fun pump => pump.id == row.pumpId) with
    | none => Sum.inr (readings, nextId)
    | some pump =>
      let newFuelSold := row.closingLitres - row.openingLitres
      let existing := readings0.find? (fun rr =>
        rr.pumpId == row.pumpId && rr.date == firstDate && rr.date == row.date)
      let netFuelSold :=
        match existing with
        | some er => newFuelSold - (er.closingLitres - er.openingLitres)
        | none => newFuelSold
      let totals1 :=
        if netFuelSold ≠ 0 then addTotal totals pump.fuelTypeId netFuelSold else totals
      match readings.find? (fun rr => rr.pumpId == row.pumpId && rr.date == row.date) with
      | some currentReading =>
          bulkFirstPass pumps readings0 firstDate rest
            (readings.map (fun rr =>
              if rr.id == currentReading.id then
                { rr with openingLitres := row.openingLitres,
                          closingLitres := row.closingLitres,
                          pricePerLitre := row.pricePerLitre, revenue := row.revenue }
              else rr))
            nextId totals1
      | none =>
          bulkFirstPass pumps readings0 firstDate rest
            (readings ++
              [{ id := nextId, pumpId := row.pumpId, date := row.date,
                 openingLitres := row.openingLitres, closingLitres := row.closingLitres,
                 pricePerLitre := row.pricePerLitre, revenue := row.revenue }])
            (nextId + 1) totals1

/-- Second pass of the bulk handler, the tank transaction: for each
fuel type adjust the active tank by the net change; a positive net
change that would drive the level negative throws, rolling back every
tank update (`none`).  A net change that adds fuel back is applied
with no capacity check, exactly as in the source. -/
def applyTankTotals (tanks : List Tank) : List (Nat × ℚ) → Option (List Tank)
  | [] => some tanks
  | (fuelTypeId, netFuelChange) :: rest =>
    match tanks.find? (fun t => t.fuelTypeId == fuelTypeId && t.isActive) with
    | none => applyTankTotals tanks rest
    | some tank =>
      let newTankLevel := tank.currentLevel - netFuelChange
      if 0 < netFuelChange ∧ newTankLevel < 0 then none
      else applyTankTotals (tanks.map (fun t =>
        if t.id == tank.id then { t with currentLevel := newTankLevel } else t)) rest

/-- `POST /api/readings/bulk` of src/index.ts. -/
def postReadingsBulk (db : DB) (rows : List BulkReadingInput) : DB × BulkResult :=
  match rows with
  | [] => (db, BulkResult.badRequest (r"Readings array cannot be empty"))
  | first :: _ =>
    if MAX_READINGS_PER_REQUEST < rows.length then
      (db, BulkResult.badRequest (r"Too many readings"))
    else
      match validateBulkRows rows with
      | some msg => (db, BulkResult.badRequest msg)
      | none =>
        match bulkFirstPass db.pumps db.readings first.date rows db.readings
            db.nextReadingId [] with
        | Sum.inr state1 =>
            ({ db with readings := state1.1, nextReadingId := state1.2 },
             BulkResult.pumpNotFound)
        | Sum.inl state1 =>
            match applyTankTotals db.tanks state1.2.2 with
            | none =>
                ({ db with readings := state1.1, nextReadingId := state1.2.1 },
                 BulkResult.insufficientFuel)
            | some tanks1 =>
                ({ db with
                    readings := state1.1, nextReadingId := state1.2.1,
                    tanks := tanks1 }, BulkResult.ok)

end FuelStation

namespace FuelStation

/-- Concrete scenario for re-submitting a reading: one tank at 100 of
1000 litres, one pump, and an existing reading for `(pump 1, day 0)`
with opening 0 and closing 10 (10 litres already deducted). -/
def eTank : Tank :=
  { id := 1, name := r"T1", capacityLit := 1000, currentLevel := 100,
    avgUnitCost := 0, fuelTypeId := 1, isActive := true }

/-- Pump of the re-submission scenario. -/
def ePump : Pump := { id := 1, name := r"P1", fuelTypeId := 1, isActive := true }

/-- Existing reading of the re-submission scenario. -/
def eReading : DailyReading :=
  { id := 1, pumpId := 1, date := 0, openingLitres := 0, closingLitres := 10,
    pricePerLitre := 1, revenue := 10 }

/-- Database of the re-submission scenario. -/
def eDB : DB :=
  { tanks := [eTank], pumps := [ePump], readings := [eReading], purchases := [],
    nextReadingId := 2, nextPurchaseId := 1 }

/-- Bulk-request row that re-submits the same reading with closing 12. -/
def eRow : BulkReadingInput :=
  { pumpId := 1, date := 0, openingLitres := 0, closingLitres := 12,
    pricePerLitre := 1, revenue := 12 }

end FuelStation

open FuelStation in
/-- C2: evaluation of both endpoints at the failing input.
Re-submitting the `(pump 1, day 0)` reading with closing litres 12
(previous fuel sold 10, new fuel sold 12, difference 2, tank at 100):
both endpoints update the existing row in place, but the single
endpoint `POST /api/readings` deducts the full new amount, leaving the
tank at 88, while the bulk endpoint deducts only the difference,
leaving it at 98 as the claim requires. -/
theorem C2_single_endpoint_full_deduction :
    (postReading eDB 1 0 0 12 1).2 = ReadingResult.created
    ∧ (postReading eDB 1 0 0 12 1).1.readings.map DailyReading.closingLitres = [12]
    ∧ (postReading eDB 1 0 0 12 1).1.readings.map DailyReading.id = [1]
    ∧ (postReading eDB 1 0 0 12 1).1.tanks.map Tank.currentLevel = [88]
    ∧ (postReadingsBulk eDB [eRow]).2 = BulkResult.ok
    ∧ (postReadingsBulk eDB [eRow]).1.readings.map DailyReading.closingLitres = [12]
    ∧ (postReadingsBulk eDB [eRow]).1.tanks.map Tank.currentLevel = [98]
    ∧ eTank.currentLevel - (12 - 10) = 98
    ∧ ¬((88 : ℚ) = 98) := by
  refine ⟨?_, ?_, ?_, ?_, ?_, ?_, ?_, ?_, ?_⟩ <;>
    norm_num [postReading, postReadingsBulk, bulkFirstPass, applyTankTotals,
      addTotal, validateBulkRows, validateSale, MAX_READINGS_PER_REQUEST,
      eDB, eTank, ePump, eReading, eRow]

namespace FuelStation

/-- If the bulk validation loop accepts every row, then no row has
closing litres below opening litres. -/
theorem validateBulkRows_none_sound :
    ∀ rows : List BulkReadingInput, validateBulkRows rows = none →
      ∀ row ∈ rows, ¬(row.closingLitres < row.openingLitres) := by
  intro rows
  induction rows with
  | nil => intro _ row hmem; cases hmem
  | cons first rest ih =>
      intro h row hmem
      unfold validateBulkRows at h
      by_cases h1 : first.pumpId = 0
      · rw [if_pos h1] at h; simp at h
      rw [if_neg h1] at h
      by_cases h2 : first.openingLitres < 0
      · rw [if_pos h2] at h; simp at h
      rw [if_neg h2] at h
      by_cases h3 : first.closingLitres < 0
      · rw [if_pos h3] at h; simp at h
      rw [if_neg h3] at h
      by_cases h4 : first.closingLitres < first.openingLitres
      · rw [if_pos h4] at h; simp at h
      rw [if_neg h4] at h
      cases hmem with
      | head => exact h4
      | tail _ hmem => exact ih h row hmem

/-- Row used to witness the bulk rejection of a negative delta. -/
def eRowNeg : BulkReadingInput :=
  { pumpId := 1, date := 0, openingLitres := 5, closingLitres := 3,
    pricePerLitre := 1, revenue := 0 }

end FuelStation

open FuelStation in
/-- C9: `fuelSold` is `closingLitres - openingLitres`, and a reading
with closing litres below opening litres is rejected before any write.
Part 1: the single endpoint rejects such a reading with a 400 and an
unchanged database.  Part 2: on the success path the single endpoint
deducts exactly `closingLitres - openingLitres` from the active tank of
the pump's fuel type.  Part 3: the bulk endpoint rejects any request
containing such a row before any write, leaving the database unchanged. -/
theorem C9_negative_delta_rejected :
    (∀ (db : DB) (pumpId date : Nat) (o c pr : ℚ), c < o →
      ∃ msg, postReading db pumpId date o c pr = (db, ReadingResult.badRequest msg))
    ∧ (∀ (db : DB) (pumpId date : Nat) (o c pr : ℚ) (pump : Pump) (tank : Tank),
        db.pumps.find? (fun p => p.id == pumpId) = some pump →
        db.tanks.find? (fun t => t.fuelTypeId == pump.fuelTypeId && t.isActive) = some tank →
        db.tanks.find? (fun t => t.id == tank.id) = some tank →
        pumpId ≠ 0 → 0 ≤ o → o < c → 0 ≤ pr → c - o ≤ tank.currentLevel →
        (postReading db pumpId date o c pr).1.tanks
          = db.tanks.map (fun t =>
              if t.id == tank.id then { t with currentLevel := tank.currentLevel - (c - o) } else t)
        ∧ (postReading db pumpId date o c pr).2 = ReadingResult.created)
    ∧ (∀ (db : DB) (rows : List BulkReadingInput) (row : BulkReadingInput),
        row ∈ rows → row.closingLitres < row.openingLitres →
        ∃ msg, postReadingsBulk db rows = (db, BulkResult.badRequest msg)) := by
  refine ⟨?_, ?_, ?_⟩
  · intro db pumpId date o c pr hco
    by_cases h1 : pumpId = 0
    · exact ⟨r"Invalid pump ID", by simp [postReading, h1]⟩
    by_cases h2 : o < 0
    · exact ⟨r"Invalid opening litres", by simp [postReading, h1, h2]⟩
    by_cases h3 : c < 0
    · exact ⟨r"Invalid closing litres", by simp [postReading, h1, h2, h3]⟩
    exact ⟨r"Invalid reading values", by simp [postReading, h1, h2, h3, hco]⟩
  · intro db pumpId date o c pr pump tank hpump htank hfetch hp0 ho hoc hpr hlevel
    have hfs : 0 < c - o := sub_pos.mpr hoc
    have h2 : ¬(o < 0) := not_lt.mpr ho
    have h3 : ¬(c < 0) := not_lt.mpr (le_trans ho (le_of_lt hoc))
    have h4 : ¬(c < o) := not_lt.mpr (le_of_lt hoc)
    have h5 : ¬(pr < 0) := not_lt.mpr hpr
    have hvalid : (validateSale (Except.ok (db.tanks.find? (fun t => t.id == tank.id)))
        (c - o)).isValid = true := by
      rw [hfetch]
      simp only [validateSale]
      rw [if_neg (not_le.mpr hfs)]
      rw [if_neg (not_lt.mpr hlevel)]
    have hcond : ¬(0 < c - o ∧ (validateSale
        (Except.ok (db.tanks.find? (fun t => t.id == tank.id))) (c - o)).isValid = false) := by
      simp [hvalid]
    have hneg : ¬(tank.currentLevel - (c - o) < 0) :=
      not_lt.mpr (sub_nonneg.mpr hlevel)
    simp only [postReading, if_neg hp0, if_neg h2, if_neg h3, if_neg h4, if_neg h5,
      hpump, htank]
    rw [if_neg hcond, if_pos hfs, if_neg hneg]
    exact ⟨rfl, rfl⟩
  · intro db rows row hmem hneg
    cases rows with
    | nil => cases hmem
    | cons first rest =>
        by_cases hlen : MAX_READINGS_PER_REQUEST < (first :: rest).length
        · exact ⟨r"Too many readings", by simp only [postReadingsBulk]; rw [if_pos hlen]⟩
        · cases hv : validateBulkRows (first :: rest) with
          | some msg =>
              exact ⟨msg, by simp only [postReadingsBulk]; rw [if_neg hlen, hv]⟩
          | none => exact absurd hneg (validateBulkRows_none_sound _ hv row hmem)

open FuelStation in
/-- C9 witness: in the concrete database `eDB`, a reading with opening
5 and closing 3 is rejected by both endpoints with the database
unchanged, and a valid re-reading with opening 0 and closing 12
deducts exactly 12 litres from the tank. -/
theorem C9_negative_delta_rejected_witness :
    (∃ msg, postReading eDB 1 0 5 3 1 = (eDB, ReadingResult.badRequest msg))
    ∧ ((postReading eDB 1 0 0 12 1).1.tanks
        = eDB.tanks.map (fun t =>
            if t.id == eTank.id then
              { t with currentLevel := eTank.currentLevel - (12 - 0) } else t)
      ∧ (postReading eDB 1 0 0 12 1).2 = ReadingResult.created)
    ∧ (∃ msg, postReadingsBulk eDB [eRowNeg] = (eDB, BulkResult.badRequest msg)) :=
  ⟨C9_negative_delta_rejected.1 eDB 1 0 5 3 1 (by decide),
   C9_negative_delta_rejected.2.1 eDB 1 0 0 12 1 ePump eTank rfl rfl rfl
     (by decide) (by decide) (by decide) (by decide) (by norm_num [eTank]),
   C9_negative_delta_rejected.2.2 eDB [eRowNeg] eRowNeg (by simp) (by decide)⟩

namespace FuelStation

/-! ### Tank level invariant (claim C1)

A step of the system is any one of the four mutating handlers embedded
above.  The counterexample trace below drives a tank above its
capacity through committed operations only. -/

/-- Every tank level is non-negative. -/
def LevelsNonneg (db : DB) : Prop := ∀ t ∈ db.tanks, 0 ≤ t.currentLevel

/-- Every tank level is within its capacity. -/
def LevelsWithinCapacity (db : DB) : Prop := ∀ t ∈ db.tanks, t.currentLevel ≤ t.capacityLit

/-- Every purchase row records a positive litre amount. -/
def PurchasesPositive (db : DB) : Prop := ∀ p ∈ db.purchases, 0 < p.litres

/-- Tank ids are pairwise distinct (primary-key invariant of the store). -/
def TankIdsNodup (db : DB) : Prop := (db.tanks.map Tank.id).Nodup

/-- One committed request against the station database: a single
reading, a bulk readings request, a purchase creation, or an unload. -/
inductive Step : DB → DB → Prop where
  | reading (db : DB) (pumpId date : Nat) (o c pr : ℚ) :
      Step db (postReading db pumpId date o c pr).1
  | bulk (db : DB) (rows : List BulkReadingInput) :
      Step db (postReadingsBulk db rows).1
  | purchase (db : DB) (tankId : Nat) (litres unitCost : ℚ) (date : Nat) :
      Step db (createPurchase db tankId litres unitCost date).1
  | unloadStep (db : DB) (purchaseId : Nat) :
      Step db (unload db purchaseId).1

/-- Tank of the over-capacity trace: 500 of 1000 litres. -/
def cTank : Tank :=
  { id := 1, name := r"Tank C", capacityLit := 1000, currentLevel := 500,
    avgUnitCost := 10, fuelTypeId := 1, isActive := true }

/-- Pump of the over-capacity trace. -/
def cPump : Pump := { id := 1, name := r"Pump C", fuelTypeId := 1, isActive := true }

/-- Initial state of the over-capacity trace. -/
def cDB0 : DB :=
  { tanks := [cTank], pumps := [cPump], readings := [], purchases := [],
    nextReadingId := 1, nextPurchaseId := 1 }

/-- Trace state after recording a reading that sells 300 litres. -/
def cDB1 : DB := (postReading cDB0 1 0 0 300 1).1

/-- Trace state after creating a pending 800-litre purchase. -/
def cDB2 : DB := (createPurchase cDB1 1 800 8 0).1

/-- Trace state after unloading the purchase (tank full at 1000). -/
def cDB3 : DB := (unload cDB2 1).1

/-- Bulk row correcting the day-0 reading down to zero litres sold. -/
def cRow : BulkReadingInput :=
  { pumpId := 1, date := 0, openingLitres := 0, closingLitres := 0,
    pricePerLitre := 1, revenue := 0 }

/-- Trace state after the bulk correction: 1300 litres in a 1000-litre tank. -/
def cDB4 : DB := (postReadingsBulk cDB3 [cRow]).1

end FuelStation

open FuelStation in
/-- C1 counterexample: starting from a valid state (tank at 500 of
1000), the committed sequence sell-300-by-reading, create-purchase-800,
unload, then bulk-correct the reading down to 0 litres sold, ends with
`currentLevel = 1300 > capacityLit = 1000`: every operation commits,
yet the invariant `currentLevel ≤ capacityLit` is violated, because the
bulk correction adds fuel back with no capacity check. -/
theorem C1_level_invariant_counterexample :
    (0 ≤ cTank.currentLevel ∧ cTank.currentLevel ≤ cTank.capacityLit)
    ∧ (postReading cDB0 1 0 0 300 1).2 = ReadingResult.created
    ∧ (createPurchase cDB1 1 800 8 0).2 = CreatePurchaseResult.created 1
    ∧ (∃ avg, (unload cDB2 1).2 = UnloadResult.ok 1000 avg)
    ∧ (postReadingsBulk cDB3 [cRow]).2 = BulkResult.ok
    ∧ cDB4.tanks.map Tank.currentLevel = [1300]
    ∧ cDB4.tanks.map Tank.capacityLit = [1000]
    ∧ ¬((1300 : ℚ) ≤ 1000) := by
  refine ⟨by norm_num [cTank], ?_, ?_, ⟨(10 * 200 + 8 * 800) / (200 + 800), ?_⟩, ?_, ?_, ?_,
    by norm_num⟩ <;>
  · norm_num [cDB4, cDB3, cDB2, cDB1, cDB0, postReading, postReadingsBulk,
      createPurchase, unload, validateSale, validatePurchase, bulkFirstPass,
      applyTankTotals, addTotal, validateBulkRows, MAX_READINGS_PER_REQUEST,
      cTank, cPump, cRow,
      show (r"pending" : String) ≠ r"unloaded" from by decide]

namespace FuelStation

/-- A purchase validation that succeeds forces a found tank, positive
litres, and enough headroom. -/
theorem validatePurchase_isValid_conditions (fetch : Option Tank) (litres : ℚ) :
    (validatePurchase (Except.ok fetch) litres).isValid = true →
    ∃ tank, fetch = some tank ∧ 0 < litres ∧
      litres ≤ tank.capacityLit - tank.currentLevel := by
  cases fetch with
  | none => intro h; simp [validatePurchase] at h
  | some tank =>
      intro h
      simp only [validatePurchase] at h
      by_cases h1 : litres ≤ 0
      · rw [if_pos h1] at h; simp at h
      rw [if_neg h1] at h
      by_cases h2 : tank.capacityLit - tank.currentLevel < litres
      · rw [if_pos h2] at h; simp at h
      · exact ⟨tank, rfl, not_le.mp h1, not_lt.mp h2⟩

/-- Shape of the single-reading handler: the tank list is unchanged,
or exactly the rows sharing the found tank's id are set to a level
that is non-negative and no higher than the found tank's previous
level; the purchase table is never touched. -/
theorem postReading_shape (db : DB) (pumpId date : Nat) (o c pr : ℚ) :
    ((postReading db pumpId date o c pr).1.tanks = db.tanks
      ∨ ∃ tank ∈ db.tanks, ∃ lvl : ℚ, 0 ≤ lvl ∧ lvl ≤ tank.currentLevel ∧
          (postReading db pumpId date o c pr).1.tanks
            = db.tanks.map (fun t =>
                if t.id == tank.id then { t with currentLevel := lvl } else t))
    ∧ (postReading db pumpId date o c pr).1.purchases = db.purchases := by
  by_cases h1 : pumpId = 0
  · constructor
    · left; simp [postReading, h1]
    · simp [postReading, h1]
  by_cases h2 : o < 0
  · constructor
    · left; simp [postReading, h1, h2]
    · simp [postReading, h1, h2]
  by_cases h3 : c < 0
  · constructor
    · left; simp [postReading, h1, h2, h3]
    · simp [postReading, h1, h2, h3]
  by_cases h4 : c < o
  · constructor
    · left; simp [postReading, h1, h2, h3, h4]
    · simp [postReading, h1, h2, h3, h4]
  by_cases h5 : pr < 0
  · constructor
    · left; simp [postReading, h1, h2, h3, h4, h5]
    · simp [postReading, h1, h2, h3, h4, h5]
  cases hpump : db.pumps.find? (fun p => p.id == pumpId) with
  | none =>
      constructor
      · left; simp [postReading, h1, h2, h3, h4, h5, hpump]
      · simp [postReading, h1, h2, h3, h4, h5, hpump]
  | some pump =>
    cases htank : db.tanks.find? (fun t => t.fuelTypeId == pump.fuelTypeId && t.isActive) with
    | none =>
        constructor
        · left; simp [postReading, h1, h2, h3, h4, h5, hpump, htank]
        · simp [postReading, h1, h2, h3, h4, h5, hpump, htank]
    | some tank =>
      by_cases hval : 0 < c - o ∧ (validateSale
          (Except.ok (db.tanks.find? (fun t => t.id == tank.id))) (c - o)).isValid = false
      · constructor
        · left; simp [postReading, h1, h2, h3, h4, h5, hpump, htank, hval]
        · simp [postReading, h1, h2, h3, h4, h5, hpump, htank, hval]
      by_cases hfs : 0 < c - o
      · have hvalid : (validateSale
            (Except.ok (db.tanks.find? (fun t => t.id == tank.id))) (c - o)).isValid = true := by
          cases hb : (validateSale
              (Except.ok (db.tanks.find? (fun t => t.id == tank.id))) (c - o)).isValid
          · exact absurd ⟨hfs, hb⟩ hval
          · rfl
        by_cases hneg : tank.currentLevel - (c - o) < 0
        · constructor
          · left; simp [postReading, h1, h2, h3, h4, h5, hpump, htank, hvalid, hfs, hneg]
          · simp [postReading, h1, h2, h3, h4, h5, hpump, htank, hvalid, hfs, hneg]
        · constructor
          · right
            refine ⟨tank, List.mem_of_find?_eq_some htank,
              tank.currentLevel - (c - o), not_lt.mp hneg,
              sub_le_self _ (le_of_lt hfs), ?_⟩
            simp [postReading, h1, h2, h3, h4, h5, hpump, htank, hvalid, hfs, hneg]
          · simp [postReading, h1, h2, h3, h4, h5, hpump, htank, hvalid, hfs, hneg]
      · constructor
        · left; simp [postReading, h1, h2, h3, h4, h5, hpump, htank, hval, hfs]
        · simp [postReading, h1, h2, h3, h4, h5, hpump, htank, hval, hfs]

/-- Shape of the purchase-creation handler: tanks are never touched,
and the purchase table either stays unchanged or gains one row whose
litre amount is the validated positive request amount. -/
theorem createPurchase_shape (db : DB) (tankId : Nat) (litres unitCost : ℚ) (date : Nat) :
    (createPurchase db tankId litres unitCost date).1.tanks = db.tanks
    ∧ ((createPurchase db tankId litres unitCost date).1.purchases = db.purchases
        ∨ ∃ q : Purchase, q.litres = litres ∧ 0 < litres ∧
            (createPurchase db tankId litres unitCost date).1.purchases
              = db.purchases ++ [q]) := by
  by_cases h1 : tankId = 0 ∨ litres = 0 ∨ unitCost = 0
  · constructor
    · simp [createPurchase, h1]
    · left; simp [createPurchase, h1]
  by_cases h2 : (validatePurchase
      (Except.ok (db.tanks.find? (fun t => t.id == tankId))) litres).isValid = false
  · constructor
    · simp [createPurchase, h1, h2]
    · left; simp [createPurchase, h1, h2]
  cases ht : db.tanks.find? (fun t => t.id == tankId) with
  | none =>
      exact absurd (show (validatePurchase
        (Except.ok (db.tanks.find? (fun t => t.id == tankId))) litres).isValid = false
        from by rw [ht]; rfl) h2
  | some tank =>
      have hvt : (validatePurchase
          (Except.ok (db.tanks.find? (fun t => t.id == tankId))) litres).isValid = true := by
        cases hb : (validatePurchase
            (Except.ok (db.tanks.find? (fun t => t.id == tankId))) litres).isValid
        · exact absurd hb h2
        · rfl
      rw [ht] at hvt
      obtain ⟨tank2, _, hpos, _⟩ := validatePurchase_isValid_conditions (some tank) litres hvt
      constructor
      · simp [createPurchase, h1, ht, hvt]
      · right
        refine ⟨{ id := db.nextPurchaseId, tankId := tankId, litres := litres,
                  unitCost := unitCost, totalCost := unitCost * litres,
                  status := r"pending", date := date }, rfl, hpos, ?_⟩
        simp [createPurchase, h1, ht, hvt]

/-- The bulk tank transaction preserves non-negative levels when it
commits. -/
theorem applyTankTotals_nonneg :
    ∀ (totals : List (Nat × ℚ)) (tanks tanks2 : List Tank),
      applyTankTotals tanks totals = some tanks2 →
      (∀ t ∈ tanks, 0 ≤ t.currentLevel) → ∀ t ∈ tanks2, 0 ≤ t.currentLevel := by
  intro totals
  induction totals with
  | nil =>
      intro tanks tanks2 h hnn
      simp only [applyTankTotals] at h
      cases h
      exact hnn
  | cons pair rest ih =>
      obtain ⟨fid, net⟩ := pair
      intro tanks tanks2 h hnn
      simp only [applyTankTotals] at h
      cases hf : tanks.find? (fun t => t.fuelTypeId == fid && t.isActive) with
      | none =>
          rw [hf] at h
          exact ih tanks tanks2 h hnn
      | some tank =>
          rw [hf] at h
          dsimp only at h
          by_cases hc : 0 < net ∧ tank.currentLevel - net < 0
          · rw [if_pos hc] at h; cases h
          · rw [if_neg hc] at h
            refine ih _ tanks2 h ?_
            intro t ht
            rcases List.mem_map.mp ht with ⟨s, hs, rfl⟩
            by_cases hid : (s.id == tank.id) = true
            · have htanklvl : 0 ≤ tank.currentLevel :=
                hnn tank (List.mem_of_find?_eq_some hf)
              rcases le_or_lt net 0 with hle | hlt
              · rw [if_pos hid]
                dsimp only
                linarith
              · have hnonneg : ¬(tank.currentLevel - net < 0) :=
                  fun hx => hc ⟨hlt, hx⟩
                rw [if_pos hid]
                dsimp only
                linarith [not_lt.mp hnonneg]
            · rw [if_neg hid]
              exact hnn s hs
  
/-- The bulk tank transaction does not change the ids of the tank rows. -/
theorem applyTankTotals_ids :
    ∀ (totals : List (Nat × ℚ)) (tanks tanks2 : List Tank),
      applyTankTotals tanks totals = some tanks2 →
      tanks2.map Tank.id = tanks.map Tank.id := by
  intro totals
  induction totals with
  | nil =>
      intro tanks tanks2 h
      simp only [applyTankTotals] at h
      cases h
      rfl
  | cons pair rest ih =>
      obtain ⟨fid, net⟩ := pair
      intro tanks tanks2 h
      simp only [applyTankTotals] at h
      cases hf : tanks.find? (fun t => t.fuelTypeId == fid && t.isActive) with
      | none => rw [hf] at h; exact ih tanks tanks2 h
      | some tank =>
          rw [hf] at h
          dsimp only at h
          by_cases hc : 0 < net ∧ tank.currentLevel - net < 0
          · rw [if_pos hc] at h; cases h
          · rw [if_neg hc] at h
            have hrec := ih _ tanks2 h
            rw [hrec, List.map_map]
            apply List.map_congr_left
            intro s _
            by_cases hid : (s.id == tank.id) = true
            · simp [Function.comp, hid]
            · simp [Function.comp, hid]

/-- Shape of the bulk handler: tanks are unchanged or are the result
of a committed bulk tank transaction on the old tank list; the
purchase table is never touched. -/
theorem postReadingsBulk_shape (db : DB) (rows : List BulkReadingInput) :
    ((postReadingsBulk db rows).1.tanks = db.tanks
      ∨ ∃ totals, applyTankTotals db.tanks totals
          = some (postReadingsBulk db rows).1.tanks)
    ∧ (postReadingsBulk db rows).1.purchases = db.purchases := by
  cases rows with
  | nil => exact ⟨Or.inl rfl, rfl⟩
  | cons first rest =>
    by_cases hlen : MAX_READINGS_PER_REQUEST < (first :: rest).length
    · have heq : postReadingsBulk db (first :: rest)
          = (db, BulkResult.badRequest (r"Too many readings")) := by
        simp only [postReadingsBulk]; rw [if_pos hlen]
      rw [heq]; exact ⟨Or.inl rfl, rfl⟩
    · cases hv : validateBulkRows (first :: rest) with
      | some msg =>
          have heq : postReadingsBulk db (first :: rest)
              = (db, BulkResult.badRequest msg) := by
            simp only [postReadingsBulk]; rw [if_neg hlen, hv]
          rw [heq]; exact ⟨Or.inl rfl, rfl⟩
      | none =>
          cases hfp : bulkFirstPass db.pumps db.readings first.date (first :: rest)
              db.readings db.nextReadingId [] with
          | inr state1 =>
              have heq : postReadingsBulk db (first :: rest)
                  = ({ db with readings := state1.1, nextReadingId := state1.2 },
                     BulkResult.pumpNotFound) := by
                simp only [postReadingsBulk]; rw [if_neg hlen, hv]
                dsimp only
                rw [hfp]
              rw [heq]; exact ⟨Or.inl rfl, rfl⟩
          | inl state1 =>
              cases hat : applyTankTotals db.tanks state1.2.2 with
              | none =>
                  have heq : postReadingsBulk db (first :: rest)
                      = ({ db with readings := state1.1, nextReadingId := state1.2.1 },
                         BulkResult.insufficientFuel) := by
                    simp only [postReadingsBulk]; rw [if_neg hlen, hv]
                    dsimp only
                    rw [hfp]
                    dsimp only
                    rw [hat]
                  rw [heq]; exact ⟨Or.inl rfl, rfl⟩
              | some tanks1 =>
                  have heq : postReadingsBulk db (first :: rest)
                      = ({ db with
                            readings := state1.1, nextReadingId := state1.2.1,
                            tanks := tanks1 }, BulkResult.ok) := by
                    simp only [postReadingsBulk]; rw [if_neg hlen, hv]
                    dsimp only
                    rw [hfp]
                    dsimp only
                    rw [hat]
                  rw [heq]
                  exact ⟨Or.inr ⟨state1.2.2, by rw [hat]⟩, rfl⟩

/-- Shape of the unload handler: tanks are unchanged, or exactly the
rows sharing the found tank's id are set to its level plus the
positive, headroom-checked litre amount; every purchase row keeps its
litre amount. -/
theorem unload_shape (db : DB) (purchaseId : Nat) :
    ((unload db purchaseId).1.tanks = db.tanks
      ∨ ∃ (tank : Tank) (litres avg : ℚ), tank ∈ db.tanks ∧ 0 < litres
          ∧ litres ≤ tank.capacityLit - tank.currentLevel
          ∧ (unload db purchaseId).1.tanks
            = db.tanks.map (fun t =>
                if t.id == tank.id then
                  { t with currentLevel := tank.currentLevel + litres,
                           avgUnitCost := avg }
                else t))
    ∧ ∀ q ∈ (unload db purchaseId).1.purchases,
        ∃ q0 ∈ db.purchases, q.litres = q0.litres := by
  cases hf : db.purchases.find? (fun q => q.id == purchaseId) with
  | none =>
      have heq : unload db purchaseId = (db, UnloadResult.notFound) := by
        simp only [unload]; rw [hf]
      rw [heq]
      exact ⟨Or.inl rfl, fun q hq => ⟨q, hq, rfl⟩⟩
  | some p =>
      by_cases hstat : p.status = r"unloaded"
      · have heq : unload db purchaseId = (db, UnloadResult.alreadyUnloaded) := by
          simp only [unload]; rw [hf]; dsimp only; rw [if_pos hstat]
        rw [heq]
        exact ⟨Or.inl rfl, fun q hq => ⟨q, hq, rfl⟩⟩
      · cases ht : db.tanks.find? (fun t => t.id == p.tankId) with
        | none =>
            have heq : unload db purchaseId = (db, UnloadResult.relationError) := by
              simp only [unload]; rw [hf]; dsimp only; rw [if_neg hstat, ht]
            rw [heq]
            exact ⟨Or.inl rfl, fun q hq => ⟨q, hq, rfl⟩⟩
        | some tank =>
            have htid : tank.id = p.tankId := by
              have := List.find?_some ht
              simpa using this
            have hrefetch : db.tanks.find? (fun t => t.id == tank.id) = some tank := by
              rw [htid]; exact ht
            by_cases hval : (validatePurchase
                (Except.ok (db.tanks.find? (fun t => t.id == tank.id)))
                p.litres).isValid = false
            · have heq : unload db purchaseId = (db, UnloadResult.validationFailed) := by
                simp only [unload]; rw [hf]; dsimp only
                rw [if_neg hstat, ht]; dsimp only; rw [if_pos hval]
              rw [heq]
              exact ⟨Or.inl rfl, fun q hq => ⟨q, hq, rfl⟩⟩
            · have hvt : (validatePurchase
                  (Except.ok (db.tanks.find? (fun t => t.id == tank.id)))
                  p.litres).isValid = true := by
                cases hb : (validatePurchase
                    (Except.ok (db.tanks.find? (fun t => t.id == tank.id)))
                    p.litres).isValid
                · exact absurd hb hval
                · rfl
              rw [hrefetch] at hvt
              obtain ⟨tank2, htk2, hpos, hcap⟩ :=
                validatePurchase_isValid_conditions (some tank) p.litres hvt
              cases htk2
              have heq : unload db purchaseId
                  = ({ db with
                        purchases := db.purchases.map (fun q =>
                          if q.id == purchaseId then { q with status := r"unloaded" } else q),
                        tanks := db.tanks.map (fun t =>
                          if t.id == tank.id then
                            { t with
                                currentLevel := tank.currentLevel + p.litres,
                                avgUnitCost := (tank.avgUnitCost * tank.currentLevel
                                  + p.unitCost * p.litres)
                                  / (tank.currentLevel + p.litres) }
                          else t) },
                     UnloadResult.ok (tank.currentLevel + p.litres)
                       ((tank.avgUnitCost * tank.currentLevel + p.unitCost * p.litres)
                         / (tank.currentLevel + p.litres))) := by
                simp only [unload]; rw [hf]; dsimp only
                rw [if_neg hstat, ht]; dsimp only; rw [if_neg hval]
              rw [heq]
              constructor
              · right
                exact ⟨tank, p.litres,
                  (tank.avgUnitCost * tank.currentLevel + p.unitCost * p.litres)
                    / (tank.currentLevel + p.litres),
                  List.mem_of_find?_eq_some ht, hpos, hcap, rfl⟩
              · intro q hq
                rcases List.mem_map.mp hq with ⟨q0, hq0, rfl⟩
                refine ⟨q0, hq0, ?_⟩
                by_cases h : q0.id == purchaseId <;> simp [h]

end FuelStation

namespace FuelStation

/-- Any single committed request preserves non-negative tank levels
and positive purchase litre amounts. -/
theorem step_preserves_inv (db db2 : DB) (hstep : Step db db2)
    (h : LevelsNonneg db ∧ PurchasesPositive db) :
    LevelsNonneg db2 ∧ PurchasesPositive db2 := by
  obtain ⟨hnn, hpp⟩ := h
  cases hstep with
  | reading pumpId date o c pr =>
      obtain ⟨htanks, hpur⟩ := postReading_shape db pumpId date o c pr
      constructor
      · intro t ht
        rcases htanks with heq | ⟨tank, htm, lvl, h0, hle, heq⟩
        · rw [heq] at ht; exact hnn t ht
        · rw [heq] at ht
          rcases List.mem_map.mp ht with ⟨s, hs, rfl⟩
          by_cases hid : (s.id == tank.id) = true
          · rw [if_pos hid]; exact h0
          · rw [if_neg hid]; exact hnn s hs
      · intro q hq; rw [hpur] at hq; exact hpp q hq
  | bulk rows =>
      obtain ⟨htanks, hpur⟩ := postReadingsBulk_shape db rows
      constructor
      · rcases htanks with heq | ⟨totals, hat⟩
        · intro t ht; rw [heq] at ht; exact hnn t ht
        · exact applyTankTotals_nonneg totals db.tanks _ hat hnn
      · intro q hq; rw [hpur] at hq; exact hpp q hq
  | purchase tankId litres unitCost date =>
      obtain ⟨htanks, hpur⟩ := createPurchase_shape db tankId litres unitCost date
      constructor
      · intro t ht; rw [htanks] at ht; exact hnn t ht
      · rcases hpur with heq | ⟨q, hql, hqpos, heq⟩
        · intro q2 hq2; rw [heq] at hq2; exact hpp q2 hq2
        · intro q2 hq2; rw [heq] at hq2
          rcases List.mem_append.mp hq2 with hmem | hmem
          · exact hpp q2 hmem
          · rw [List.mem_singleton] at hmem
            subst hmem
            rw [hql]
            exact hqpos
  | unloadStep purchaseId =>
      obtain ⟨htanks, hpur⟩ := unload_shape db purchaseId
      constructor
      · rcases htanks with heq | ⟨tank, litres, avg, htm, hpos, hcapok, heq⟩
        · intro t ht; rw [heq] at ht; exact hnn t ht
        · intro t ht; rw [heq] at ht
          rcases List.mem_map.mp ht with ⟨s, hs, rfl⟩
          by_cases hid : (s.id == tank.id) = true
          · rw [if_pos hid]
            have hlev := hnn tank htm
            dsimp only
            linarith
          · rw [if_neg hid]; exact hnn s hs
      · intro q hq
        obtain ⟨q0, hq0, hl⟩ := hpur q hq
        rw [hl]; exact hpp q0 hq0

end FuelStation

open FuelStation in
/-- C1 amended: along any sequence of committed operations, every
tank level stays at or above 0; the single-reading, purchase-creation
and unload handlers also preserve the upper bound
`currentLevel ≤ capacityLit` (the id-nodup hypotheses state the
primary-key uniqueness of the tank table), but the upper bound is not
preserved by the bulk endpoint, whose downward corrections add fuel
back with no capacity check (see the counterexample). -/
theorem C1_level_invariant_amended :
    (∀ db db2 : DB, Relation.ReflTransGen Step db db2 →
        LevelsNonneg db ∧ PurchasesPositive db →
        LevelsNonneg db2 ∧ PurchasesPositive db2)
    ∧ (∀ (db : DB) (pumpId date : Nat) (o c pr : ℚ),
        TankIdsNodup db → LevelsWithinCapacity db →
        LevelsWithinCapacity (postReading db pumpId date o c pr).1)
    ∧ (∀ (db : DB) (tankId : Nat) (litres unitCost : ℚ) (date : Nat),
        LevelsWithinCapacity db →
        LevelsWithinCapacity (createPurchase db tankId litres unitCost date).1)
    ∧ (∀ (db : DB) (purchaseId : Nat),
        TankIdsNodup db → LevelsWithinCapacity db →
        LevelsWithinCapacity (unload db purchaseId).1) := by
  refine ⟨?_, ?_, ?_, ?_⟩
  · intro db db2 hsteps
    induction hsteps with
    | refl => exact id
    | tail hab hbc ih => intro h; exact step_preserves_inv _ _ hbc (ih h)
  · intro db pumpId date o c pr hnodup hcap
    obtain ⟨htanks, _⟩ := postReading_shape db pumpId date o c pr
    rcases htanks with heq | ⟨tank, htm, lvl, h0, hle, heq⟩
    · intro t ht; rw [heq] at ht; exact hcap t ht
    · intro t ht; rw [heq] at ht
      rcases List.mem_map.mp ht with ⟨s, hs, rfl⟩
      by_cases hid : (s.id == tank.id) = true
      · rw [if_pos hid]
        have hseq : s = tank :=
          List.inj_on_of_nodup_map hnodup hs htm (by simpa using hid)
        subst hseq
        dsimp only
        exact le_trans hle (hcap s hs)
      · rw [if_neg hid]; exact hcap s hs
  · intro db tankId litres unitCost date hcap
    obtain ⟨htanks, _⟩ := createPurchase_shape db tankId litres unitCost date
    intro t ht; rw [htanks] at ht; exact hcap t ht
  · intro db purchaseId hnodup hcap
    obtain ⟨htanks, _⟩ := unload_shape db purchaseId
    rcases htanks with heq | ⟨tank, litres, avg, htm, hpos, hcapok, heq⟩
    · intro t ht; rw [heq] at ht; exact hcap t ht
    · intro t ht; rw [heq] at ht
      rcases List.mem_map.mp ht with ⟨s, hs, rfl⟩
      by_cases hid : (s.id == tank.id) = true
      · rw [if_pos hid]
        have hseq : s = tank :=
          List.inj_on_of_nodup_map hnodup hs htm (by simpa using hid)
        subst hseq
        dsimp only
        linarith
      · rw [if_neg hid]; exact hcap s hs

open FuelStation in
/-- C1 amended witness: the preserved bounds hold after concrete
committed operations on the 500-of-1000-litre starting state. -/
theorem C1_level_invariant_amended_witness :
    (LevelsNonneg cDB1 ∧ PurchasesPositive cDB1)
    ∧ LevelsWithinCapacity (postReading cDB0 1 0 0 300 1).1
    ∧ LevelsWithinCapacity (createPurchase cDB0 1 800 8 0).1
    ∧ LevelsWithinCapacity (unload cDB0 1).1 :=
  ⟨C1_level_invariant_amended.1 cDB0 cDB1
      (Relation.ReflTransGen.single (Step.reading cDB0 1 0 0 300 1))
      ⟨by norm_num [LevelsNonneg, cDB0, cTank], by simp [PurchasesPositive, cDB0]⟩,
   C1_level_invariant_amended.2.1 cDB0 1 0 0 300 1
      (by simp [TankIdsNodup, cDB0, cTank])
      (by norm_num [LevelsWithinCapacity, cDB0, cTank]),
   C1_level_invariant_amended.2.2.1 cDB0 1 800 8 0
      (by norm_num [LevelsWithinCapacity, cDB0, cTank]),
   C1_level_invariant_amended.2.2.2 cDB0 1
      (by simp [TankIdsNodup, cDB0, cTank])
      (by norm_num [LevelsWithinCapacity, cDB0, cTank])⟩

namespace FuelStation

/-! ### Reconciliation/Reporting Engine (GET /api/validation of src/index.ts)

The inline handler at src/index.ts line 1287 is registered before the
validation router is mounted, so it serves `GET /api/validation`. -/

/-- Tables read by the daily validation report. -/
structure ReportDB where
  pumps : List Pump
  readings : List DailyReading
  prices : List Price
  cashReceipts : List CashReceipt
  onlinePayments : List OnlinePayment
  credits : List ClientCredit
deriving Repr, DecidableEq

/-- JSON body produced by `GET /api/validation`. -/
structure ValidationData where
  grossSales : ℚ
  cashReceipts : ℚ
  onlinePayments : ℚ
  creditSales : ℚ
  creditPayments : ℚ
  totalReceived : ℚ
  expectedTotal : ℚ
  difference : ℚ
  isBalanced : Bool
deriving Repr, DecidableEq

/-- `GET /api/validation` of src/index.ts for day `d`: gross sales from
the day's readings at the current active prices (counting only
positive deltas), money received as cash plus online plus credit
payments settled by Worker or UPI on that day, expected total as
received plus credit sales, balanced when the difference is within the
0.01 epsilon. -/
def getValidation (db : ReportDB) (d : Nat) : ValidationData :=
  let readings := db.readings.filter (fun rr => rr.date == d)
  let prices := db.prices.filter (fun p => p.isActive)
  let grossSales := readings.foldl (fun (acc : ℚ) reading =>
    let fuelSold := reading.closingLitres - reading.openingLitres
    let currentPrice : Option Price :=
      match db.pumps.find? (fun p => p.id == reading.pumpId) with
      | some pump => prices.find? (fun p => p.fuelTypeId == pump.fuelTypeId)
      | none => none
    match currentPrice with
    | some price => if 0 < fuelSold then acc + fuelSold * price.perLitre else acc
    | none => acc) 0
  let cashReceipts := db.cashReceipts.filter (fun receipt => receipt.date == d)
  let onlinePayments := db.onlinePayments.filter (fun payment => payment.date == d)
  let creditSales := db.credits.filter (fun credit => credit.date == d)
  let creditPayments := db.credits.filter (fun credit =>
    credit.paidDate == some d && credit.status == r"paid" &&
      (credit.paymentMethod == some (r"Worker") || credit.paymentMethod == some (r"UPI")))
  let totalCashReceipts := (cashReceipts.map (fun receipt => receipt.amount)).sum
  let totalOnlinePayments := (onlinePayments.map (fun payment => payment.amount)).sum
  let totalCreditSales := (creditSales.map (fun credit => credit.totalAmount)).sum
  let totalCreditPayments := (creditPayments.map (fun credit => credit.totalAmount)).sum
  let totalReceived := totalCashReceipts + totalOnlinePayments + totalCreditPayments
  let expectedTotal := totalReceived + totalCreditSales
  let difference := expectedTotal - grossSales
  { grossSales := grossSales,
    cashReceipts := totalCashReceipts,
    onlinePayments := totalOnlinePayments,
    creditSales := totalCreditSales,
    creditPayments := totalCreditPayments,
    totalReceived := totalReceived,
    expectedTotal := expectedTotal,
    difference := difference,
    isBalanced := decide (|difference| < 1/100) }

end FuelStation

open FuelStation in
/-- C3: in the daily validation report, `totalReceived` is cash
receipts plus online payments plus credit payments settled by Worker
or UPI on the day (an Owner-settled payment contributes nothing);
`expectedTotal` is `totalReceived` plus the credit sales of the day;
and `isBalanced` holds exactly when
`|expectedTotal - grossSales| < 0.01`. -/
theorem C3_validation_reconciliation (db : ReportDB) (d : Nat) (cr : ClientCredit) :
    ((getValidation db d).totalReceived
      = ((db.cashReceipts.filter (fun x => x.date == d)).map (fun x => x.amount)).sum
        + ((db.onlinePayments.filter (fun x => x.date == d)).map (fun x => x.amount)).sum
        + (List.map (fun (c2 : ClientCredit) => c2.totalAmount)
            (db.credits.filter (fun (c2 : ClientCredit) => c2.status == r"paid"
              && c2.paidDate == some d
              && (c2.paymentMethod == some (r"Worker")
                  || c2.paymentMethod == some (r"UPI"))))).sum)
    ∧ (cr.paymentMethod = some (r"Owner") →
        (getValidation { db with credits := cr :: db.credits } d).totalReceived
          = (getValidation db d).totalReceived)
    ∧ (getValidation db d).expectedTotal
        = (getValidation db d).totalReceived
          + ((db.credits.filter (fun c2 => c2.date == d)).map (fun c2 => c2.totalAmount)).sum
    ∧ ((getValidation db d).isBalanced = true
        ↔ |(getValidation db d).expectedTotal - (getValidation db d).grossSales| < 1/100) := by
  refine ⟨?_, ?_, ?_, ?_⟩
  · simp only [getValidation]
    have hcongr : db.credits.filter (fun credit =>
        credit.paidDate == some d && credit.status == r"paid" &&
          (credit.paymentMethod == some (r"Worker") || credit.paymentMethod == some (r"UPI")))
        = db.credits.filter (fun (c2 : ClientCredit) => c2.status == r"paid"
          && c2.paidDate == some d
          && (c2.paymentMethod == some (r"Worker") || c2.paymentMethod == some (r"UPI"))) := by
      apply List.filter_congr
      intro c2 _
      rw [Bool.and_comm (c2.paidDate == some d) (c2.status == r"paid")]
    rw [hcongr]
  · intro hOwner
    simp only [getValidation, List.filter_cons]
    have h1 : (cr.paidDate == some d && cr.status == r"paid" &&
        (cr.paymentMethod == some (r"Worker") || cr.paymentMethod == some (r"UPI"))) = false := by
      rw [hOwner]
      simp
    rw [h1]
    simp
  · simp only [getValidation]
  · simp only [getValidation, decide_eq_true_iff]

open FuelStation in
/-- C3 witness: an Owner-settled credit payment added to an empty
report database leaves `totalReceived` unchanged. -/
theorem C3_validation_reconciliation_witness :
    (getValidation
      { pumps := [], readings := [], prices := [], cashReceipts := [],
        onlinePayments := [],
        credits := [{ id := 1, clientId := 1, fuelTypeId := 1, litres := 0,
                      pricePerLitre := 10, totalAmount := 70, status := r"paid",
                      paymentMethod := some (r"Owner"), paidDate := some 0,
                      date := 0 }] } 0).totalReceived
    = (getValidation
      { pumps := [], readings := [], prices := [], cashReceipts := [],
        onlinePayments := [], credits := [] } 0).totalReceived :=
  (C3_validation_reconciliation
    { pumps := [], readings := [], prices := [], cashReceipts := [],
      onlinePayments := [], credits := [] } 0
    { id := 1, clientId := 1, fuelTypeId := 1, litres := 0,
      pricePerLitre := 10, totalAmount := 70, status := r"paid",
      paymentMethod := some (r"Owner"), paidDate := some 0, date := 0 }).2.1 rfl

namespace FuelStation

/-! ### Price setting (`POST /api/prices/set`, inline handler of src/index.ts)

The handler first deactivates every active price row, then resolves
each requested fuel-type name through a normalised name map and
inserts one new active row per entry; a bad name or price aborts the
insert (the deactivation has already been committed). -/

/-- `ft.name.toLowerCase().replace(whitespace, empty)` of the handler. -/
def fuelKey (s : String) : String :=
  String.mk ((s.data.map Char.toLower).filter (fun ch => !ch.isWhitespace))

/-- JavaScript object assignment `map[key] = id` over an association
list: overwrite the binding if the key exists, append otherwise. -/
def setKey : List (String × Nat) → String → Nat → List (String × Nat)
  | [], k, v => [(k, v)]
  | (k2, v2) :: rest, k, v =>
      if k2 = k then (k2, v) :: rest else (k2, v2) :: setKey rest k v

/-- The `fuelTypeMap` built from all fuel types. -/
def buildFuelTypeMap (fuelTypes : List FuelType) : List (String × Nat) :=
  fuelTypes.foldl (fun m ft => setKey m (fuelKey ft.name) ft.id) []

/-- `fuelTypeMap[fuelTypeName]` lookup (raw request key, as in the source). -/
def lookupKey (m : List (String × Nat)) (k : String) : Option Nat :=
  (m.find? (fun kv => kv.1 == k)).map (fun kv => kv.2)

/-- Tables touched by `POST /api/prices/set`. -/
structure PricesDB where
  fuelTypes : List FuelType
  prices : List Price
  nextPriceId : Nat
deriving Repr, DecidableEq

/-- Result of `POST /api/prices/set`. -/
inductive PricesSetResult where
  | badRequest (msg : String)
  | ok
deriving Repr, DecidableEq

/-- The entry-building loop of the handler: resolve each name, check
the price value, and build the `createMany` rows; the first bad entry
aborts with a 400. -/
def buildPriceEntries (fuelTypeMap : List (String × Nat)) (dateStamp : Nat) :
    List (String × ℚ) → Nat → Except String (List Price)
  | [], _ => Except.ok []
  | (fuelTypeName, price) :: rest, nid =>
      match lookupKey fuelTypeMap fuelTypeName with
      | none => Except.error (r"Unknown fuel type")
      | some fuelTypeId =>
          if price < 0 then Except.error (r"Invalid price value")
          else
            match buildPriceEntries fuelTypeMap dateStamp rest (nid + 1) with
            | Except.error msg => Except.error msg
            | Except.ok entries =>
                Except.ok ({ id := nid, fuelTypeId := fuelTypeId, perLitre := price,
                             isActive := true, createdAt := dateStamp } :: entries)

/-- `POST /api/prices/set` of src/index.ts: deactivate every active
price row (this write commits even if a later entry is invalid), then
insert the new active rows. -/
def pricesSet (db : PricesDB) (request : List (String × ℚ)) (dateStamp : Nat) :
    PricesDB × PricesSetResult :=
  let fuelTypeMap := buildFuelTypeMap db.fuelTypes
  let deactivated := db.prices.map (fun p =>
    if p.isActive then { p with isActive := false } else p)
  match buildPriceEntries fuelTypeMap dateStamp request db.nextPriceId with
  | Except.error msg =>
      ({ db with prices := deactivated }, PricesSetResult.badRequest msg)
  | Except.ok entries =>
      ({ db with
          prices := deactivated ++ entries,
          nextPriceId := db.nextPriceId + request.length }, PricesSetResult.ok)

/-- After the deactivation pass every row is inactive. -/
theorem deactivated_all_inactive (prices : List Price) :
    ∀ p ∈ prices.map (fun p => if p.isActive then { p with isActive := false } else p),
      p.isActive = false := by
  intro p hp
  rcases List.mem_map.mp hp with ⟨s, _, rfl⟩
  by_cases hs : s.isActive = true
  · rw [if_pos hs]
  · rw [if_neg hs]
    simpa using hs

/-- Rows produced by the entry loop are active and take ids from the
allocator onwards. -/
theorem buildPriceEntries_active (m : List (String × Nat)) (ds : Nat) :
    ∀ (req : List (String × ℚ)) (nid : Nat) (entries : List Price),
      buildPriceEntries m ds req nid = Except.ok entries →
      ∀ p ∈ entries, p.isActive = true ∧ nid ≤ p.id := by
  intro req
  induction req with
  | nil =>
      intro nid entries h p hp
      simp only [buildPriceEntries] at h
      cases h
      cases hp
  | cons e rest ih =>
      obtain ⟨fuelTypeName, price⟩ := e
      intro nid entries h p hp
      simp only [buildPriceEntries] at h
      cases hl : lookupKey m fuelTypeName with
      | none => rw [hl] at h; cases h
      | some fid =>
          rw [hl] at h
          dsimp only at h
          by_cases hneg : price < 0
          · rw [if_pos hneg] at h; cases h
          · rw [if_neg hneg] at h
            cases hrest : buildPriceEntries m ds rest (nid + 1) with
            | error msg => rw [hrest] at h; cases h
            | ok entries2 =>
                rw [hrest] at h
                dsimp only at h
                cases h
                cases hp with
                | head => exact ⟨rfl, le_refl _⟩
                | tail _ hp =>
                    obtain ⟨ha, hid⟩ := ih (nid + 1) entries2 hrest p hp
                    exact ⟨ha, le_trans (Nat.le_succ nid) hid⟩

/-- The fuel types of the rows produced by the entry loop are exactly
the resolved names of the request, in order. -/
theorem buildPriceEntries_fuelTypes (m : List (String × Nat)) (ds : Nat) :
    ∀ (req : List (String × ℚ)) (nid : Nat) (entries : List Price),
      buildPriceEntries m ds req nid = Except.ok entries →
      entries.map Price.fuelTypeId = req.filterMap (fun e => lookupKey m e.1) := by
  intro req
  induction req with
  | nil =>
      intro nid entries h
      simp only [buildPriceEntries] at h
      cases h
      rfl
  | cons e rest ih =>
      obtain ⟨fuelTypeName, price⟩ := e
      intro nid entries h
      simp only [buildPriceEntries] at h
      cases hl : lookupKey m fuelTypeName with
      | none => rw [hl] at h; cases h
      | some fid =>
          rw [hl] at h
          dsimp only at h
          by_cases hneg : price < 0
          · rw [if_pos hneg] at h; cases h
          · rw [if_neg hneg] at h
            cases hrest : buildPriceEntries m ds rest (nid + 1) with
            | error msg => rw [hrest] at h; cases h
            | ok entries2 =>
                rw [hrest] at h
                dsimp only at h
                cases h
                rw [List.map_cons, List.filterMap_cons]
                dsimp only
                rw [hl, ih (nid + 1) entries2 hrest]

/-- When the entry loop succeeds, every requested name resolves. -/
theorem buildPriceEntries_resolves (m : List (String × Nat)) (ds : Nat) :
    ∀ (req : List (String × ℚ)) (nid : Nat) (entries : List Price),
      buildPriceEntries m ds req nid = Except.ok entries →
      ∀ e ∈ req, ∃ fid, lookupKey m e.1 = some fid := by
  intro req
  induction req with
  | nil => intro nid entries _ e he; cases he
  | cons e2 rest ih =>
      obtain ⟨fuelTypeName, price⟩ := e2
      intro nid entries h e he
      simp only [buildPriceEntries] at h
      cases hl : lookupKey m fuelTypeName with
      | none => rw [hl] at h; cases h
      | some fid =>
          rw [hl] at h
          dsimp only at h
          by_cases hneg : price < 0
          · rw [if_pos hneg] at h; cases h
          · rw [if_neg hneg] at h
            cases hrest : buildPriceEntries m ds rest (nid + 1) with
            | error msg => rw [hrest] at h; cases h
            | ok entries2 =>
                cases he with
                | head => exact ⟨fid, hl⟩
                | tail _ he => exact ih (nid + 1) entries2 hrest e he

end FuelStation

open FuelStation in
/-- C6: after `POST /api/prices/set`, every still-active price row is a
newly inserted one (so every previously existing active row has been
deactivated — in fact the handler deactivates all active rows of all
fuel types first, and the intermediate state has no active row at
all); on success each requested fuel type has exactly one active
price; and afterwards every fuel type, requested or not, has at most
one active price.  The hypothesis states that the requested names
resolve to pairwise distinct fuel types, i.e. the request covers a set
of fuel types. -/
theorem C6_prices_set_single_active (db : PricesDB) (request : List (String × ℚ))
    (dateStamp : Nat)
    (hnodup : (request.filterMap (fun e =>
      lookupKey (buildFuelTypeMap db.fuelTypes) e.1)).Nodup) :
    (∀ p ∈ (pricesSet db request dateStamp).1.prices,
        p.isActive = true → db.nextPriceId ≤ p.id)
    ∧ (db.prices.map (fun p => if p.isActive then { p with isActive := false } else p)).filter
        (fun p => p.isActive) = []
    ∧ ((pricesSet db request dateStamp).2 = PricesSetResult.ok →
        ∀ e ∈ request, ∃ fid,
          lookupKey (buildFuelTypeMap db.fuelTypes) e.1 = some fid
          ∧ ((pricesSet db request dateStamp).1.prices.filter
              (fun p => p.isActive && p.fuelTypeId == fid)).length = 1)
    ∧ ∀ fid : Nat, ((pricesSet db request dateStamp).1.prices.filter
          (fun p => p.isActive && p.fuelTypeId == fid)).length ≤ 1 := by
  have hdeact := deactivated_all_inactive db.prices
  have hdeactnil : (db.prices.map (fun p =>
      if p.isActive then { p with isActive := false } else p)).filter
      (fun p => p.isActive) = [] :=
    List.filter_eq_nil_iff.mpr (fun p hp => by simp [hdeact p hp])
  have hdeactfilter : ∀ fid : Nat, (db.prices.map (fun p =>
      if p.isActive then { p with isActive := false } else p)).filter
      (fun p => p.isActive && p.fuelTypeId == fid) = [] := fun fid =>
    List.filter_eq_nil_iff.mpr (fun p hp => by simp [hdeact p hp])
  cases hbe : buildPriceEntries (buildFuelTypeMap db.fuelTypes) dateStamp request
      db.nextPriceId with
  | error msg =>
      have hres : pricesSet db request dateStamp
          = ({ db with prices := db.prices.map (fun p =>
                if p.isActive then { p with isActive := false } else p) },
             PricesSetResult.badRequest msg) := by
        simp only [pricesSet]; rw [hbe]
      refine ⟨?_, hdeactnil, ?_, ?_⟩
      · intro p hp hactive
        rw [hres] at hp
        simp [hdeact p hp] at hactive
      · intro hok
        rw [hres] at hok
        simp at hok
      · intro fid
        rw [hres]
        dsimp only
        rw [hdeactfilter fid]
        simp
  | ok entries =>
      have hres : pricesSet db request dateStamp
          = ({ db with
                prices := db.prices.map (fun p =>
                  if p.isActive then { p with isActive := false } else p) ++ entries,
                nextPriceId := db.nextPriceId + request.length },
             PricesSetResult.ok) := by
        simp only [pricesSet]; rw [hbe]
      have hact := buildPriceEntries_active (buildFuelTypeMap db.fuelTypes) dateStamp
        request db.nextPriceId entries hbe
      have hmap := buildPriceEntries_fuelTypes (buildFuelTypeMap db.fuelTypes) dateStamp
        request db.nextPriceId entries hbe
      have hfilter : ∀ fid : Nat,
          ((db.prices.map (fun p =>
              if p.isActive then { p with isActive := false } else p) ++ entries).filter
            (fun p => p.isActive && p.fuelTypeId == fid))
          = entries.filter (fun p => p.fuelTypeId == fid) := fun fid => by
        rw [List.filter_append, hdeactfilter fid, List.nil_append]
        exact List.filter_congr (fun p hp => by rw [(hact p hp).1, Bool.true_and])
      have hlen : ∀ fid : Nat, (entries.filter (fun p => p.fuelTypeId == fid)).length
          = (request.filterMap (fun e =>
              lookupKey (buildFuelTypeMap db.fuelTypes) e.1)).count fid := fun fid => by
        rw [← hmap]
        simp only [List.count, List.countP_map, ← List.countP_eq_length_filter]
        rfl
      refine ⟨?_, hdeactnil, ?_, ?_⟩
      · intro p hp hactive
        rw [hres] at hp
        rcases List.mem_append.mp hp with hp | hp
        · simp [hdeact p hp] at hactive
        · exact (hact p hp).2
      · intro _ e he
        obtain ⟨fid, hl⟩ := buildPriceEntries_resolves (buildFuelTypeMap db.fuelTypes)
          dateStamp request db.nextPriceId entries hbe e he
        refine ⟨fid, hl, ?_⟩
        rw [hres]
        dsimp only
        rw [hfilter fid, hlen fid]
        exact List.count_eq_one_of_mem hnodup (List.mem_filterMap.mpr ⟨e, he, hl⟩)
      · intro fid
        rw [hres]
        dsimp only
        rw [hfilter fid, hlen fid]
        exact List.nodup_iff_count_le_one.mp hnodup fid

namespace FuelStation

/-- Concrete price database for the C6 witness: three fuel types, each
with one previously active price row. -/
def pDB : PricesDB :=
  { fuelTypes := [{ id := 1, name := r"Petrol" }, { id := 2, name := r"Diesel" },
      { id := 3, name := r"Premium Petrol" }],
    prices := [{ id := 1, fuelTypeId := 1, perLitre := 95, isActive := true, createdAt := 0 },
      { id := 2, fuelTypeId := 2, perLitre := 88, isActive := true, createdAt := 0 },
      { id := 3, fuelTypeId := 3, perLitre := 99, isActive := true, createdAt := 0 }],
    nextPriceId := 4 }

end FuelStation

open FuelStation in
/-- C6 witness: setting petrol and diesel prices on the concrete
database leaves exactly one active petrol price and at most one active
premium-petrol price. -/
theorem C6_prices_set_single_active_witness :
    (∃ fid, lookupKey (buildFuelTypeMap pDB.fuelTypes) (r"petrol") = some fid
      ∧ ((pricesSet pDB [(r"petrol", 100), (r"diesel", 90)] 1).1.prices.filter
          (fun p => p.isActive && p.fuelTypeId == fid)).length = 1)
    ∧ ((pricesSet pDB [(r"petrol", 100), (r"diesel", 90)] 1).1.prices.filter
        (fun p => p.isActive && p.fuelTypeId == 3)).length ≤ 1 :=
  ⟨(C6_prices_set_single_active pDB [(r"petrol", 100), (r"diesel", 90)] 1
      (by decide)).2.2.1 (by decide) (r"petrol", 100) (by decide),
   (C6_prices_set_single_active pDB [(r"petrol", 100), (r"diesel", 90)] 1
      (by decide)).2.2.2 3⟩

namespace FuelStation

/-! ### Credit/Payment Ledger

`POST /api/credits` and `PUT /api/credits/:id/mark-paid` are served by
the first-registered inline handlers of src/index.ts (lines 1150 and
1180); the later duplicates at lines 2214 and 2237 are shadowed.  The
credit-limit rule appears only in `createSalesRouter` of
src/routes/sales.ts, which index.ts never mounts. -/

/-- Tables touched by the credit endpoints. -/
structure ClientsDB where
  clients : List Client
  credits : List ClientCredit
  nextCreditId : Nat
deriving Repr, DecidableEq

/-- Result of `POST /api/credits`. -/
inductive PostCreditsResult where
  | created (id : Nat)
  | serverError
deriving Repr, DecidableEq

/-- `POST /api/credits` of src/index.ts (line 1150, the mounted one):
insert the credit row with the schema default `status = "unpaid"`.
There is no credit-limit check and `client.balance` is never touched;
a missing client surfaces as a foreign-key error (500). -/
def postCredits (db : ClientsDB) (clientId fuelTypeId : Nat)
    (litres pricePerLitre totalAmount : ℚ) (date : Nat) : ClientsDB × PostCreditsResult :=
  match db.clients.find? (fun cl => cl.id == clientId) with
  | none => (db, PostCreditsResult.serverError)
  | some _ =>
      ({ db with
          credits := db.credits ++
            [{ id := db.nextCreditId, clientId := clientId, fuelTypeId := fuelTypeId,
               litres := litres, pricePerLitre := pricePerLitre,
               totalAmount := totalAmount, status := r"unpaid",
               paymentMethod := none, paidDate := none, date := date }],
          nextCreditId := db.nextCreditId + 1 },
       PostCreditsResult.created db.nextCreditId)

/-- Result of `PUT /api/credits/:id/mark-paid`. -/
inductive MarkPaidResult where
  | badRequest
  | notFound
  | ok
deriving Repr, DecidableEq

/-- `PUT /api/credits/:id/mark-paid` of src/index.ts (line 1180, the
mounted one): reject a payment method outside UPI/Worker/Owner, then
set `status`, `paidDate` and `paymentMethod` on the credit row.
`client.balance` is never touched. -/
def markPaid (db : ClientsDB) (id : Nat) (paymentMethod : Option String)
    (now : Nat) : ClientsDB × MarkPaidResult :=
  let validMethods := [r"UPI", r"Worker", r"Owner"]
  match paymentMethod with
  | none => (db, MarkPaidResult.badRequest)
  | some m =>
      if validMethods.contains m = false then (db, MarkPaidResult.badRequest)
      else
        match db.credits.find? (fun cr => cr.id == id) with
        | none => (db, MarkPaidResult.notFound)
        | some _ =>
            ({ db with
                credits := db.credits.map (fun cr =>
                  if cr.id == id then
                    { cr with status := r"paid", paidDate := some now,
                              paymentMethod := some m }
                  else cr) },
             MarkPaidResult.ok)

/-- Row of the `Sale` table (fields used by the sales router). -/
structure Sale where
  id : Nat
  litres : ℚ
  pricePerLitre : ℚ
  totalAmount : ℚ
  costPerLitre : ℚ
  profit : ℚ
  paymentMethod : String
  clientId : Option Nat
deriving Repr, DecidableEq

/-- Tables touched by `POST /` of the (unmounted) sales router. -/
structure SalesDB where
  tanks : List Tank
  prices : List Price
  clients : List Client
  credits : List ClientCredit
  sales : List Sale
  nextCreditId : Nat
  nextSaleId : Nat
deriving Repr, DecidableEq

/-- Result of the sales router `POST /`. -/
inductive SaleResult where
  | badRequest
  | validationFailed
  | txError (msg : String)
  | ok
deriving Repr, DecidableEq

/-- `POST /` of src/routes/sales.ts: Guard check, then a transaction
that re-checks the level, finds the active price, and for
`method = "CREDIT"` enforces the credit limit and increments the
client balance before deducting the tank and recording the sale; any
thrown error aborts the whole transaction. -/
def postSale (db : SalesDB) (tankId : Nat) (litres : ℚ) (method : String)
    (clientId : Option Nat) (now : Nat) : SalesDB × SaleResult :=
  if tankId = 0 ∨ litres ≤ 0 then (db, SaleResult.badRequest)
  else
    let validation := validateSale
      (Except.ok (db.tanks.find? (fun t => t.id == tankId))) litres
    if validation.isValid = false then (db, SaleResult.validationFailed)
    else
      match db.tanks.find? (fun t => t.id == tankId) with
      | none => (db, SaleResult.txError (r"Tank not found"))
      | some tank =>
        if tank.currentLevel < litres then
          (db, SaleResult.txError (r"Insufficient fuel in tank"))
        else
          match db.prices.find? (fun p => p.fuelTypeId == tank.fuelTypeId && p.isActive) with
          | none => (db, SaleResult.txError (r"No active price"))
          | some price =>
            let totalAmount := litres * price.perLitre
            match
              (if method = r"CREDIT" then
                match clientId with
                | none => Except.error (r"clientId required for credit")
                | some cid =>
                  match db.clients.find? (fun cl => cl.id == cid) with
                  | none => Except.error (r"Client not found")
                  | some client =>
                    let newBalance := client.balance + totalAmount
                    if client.creditLimit < newBalance then
                      Except.error (r"Credit limit exceeded")
                    else Except.ok
                      (db.clients.map (fun cl =>
                        if cl.id == client.id then { cl with balance := newBalance } else cl),
                       db.credits ++
                         [{ id := db.nextCreditId, clientId := client.id,
                            fuelTypeId := tank.fuelTypeId, litres := 0,
                            pricePerLitre := price.perLitre, totalAmount := totalAmount,
                            status := r"unpaid", paymentMethod := none,
                            paidDate := none, date := now }],
                       db.nextCreditId + 1)
              else Except.ok (db.clients, db.credits, db.nextCreditId)) with
            | Except.error msg => (db, SaleResult.txError msg)
            | Except.ok state1 =>
              let costPerLitre := tank.avgUnitCost
              let profit := totalAmount - costPerLitre * litres
              ({ db with
                  clients := state1.1, credits := state1.2.1,
                  nextCreditId := state1.2.2,
                  tanks := db.tanks.map (fun t =>
                    if t.id == tank.id then
                      { t with currentLevel := tank.currentLevel - litres } else t),
                  sales := db.sales ++
                    [{ id := db.nextSaleId, litres := litres,
                       pricePerLitre := price.perLitre, totalAmount := totalAmount,
                       costPerLitre := costPerLitre, profit := profit,
                       paymentMethod := method, clientId := clientId }],
                  nextSaleId := db.nextSaleId + 1 }, SaleResult.ok)

/-- Client of the credit-limit scenario: balance 90 of a 100 limit. -/
def kClient : Client := { id := 1, name := r"K", creditLimit := 100, balance := 90 }

/-- Database of the credit-limit scenario. -/
def kDB : ClientsDB := { clients := [kClient], credits := [], nextCreditId := 1 }

end FuelStation

open FuelStation in
/-- C7 counterexample: client with balance 90 and credit limit 100;
`POST /api/credits` with `totalAmount = 50` (which would push the
balance to 140, past the limit) succeeds and leaves `client.balance`
unchanged — the claimed credit-limit rejection and balance increment
do not happen at the mounted credit-creation endpoint. -/
theorem C7_credit_limit_counterexample :
    (postCredits kDB 1 1 5 10 50 0).2 = PostCreditsResult.created 1
    ∧ (postCredits kDB 1 1 5 10 50 0).1.clients = [kClient]
    ∧ (postCredits kDB 1 1 5 10 50 0).1.credits.map (fun cr => cr.totalAmount) = [50]
    ∧ kClient.creditLimit < kClient.balance + 50 :=
  ⟨rfl, rfl, rfl, by norm_num [kClient]⟩

open FuelStation in
/-- C7 amended: the mounted `POST /api/credits` endpoint accepts any
`totalAmount` and never changes `client.balance`; the credit-limit
rule of the claim is implemented only in the CREDIT branch of the
unmounted sales router, which rejects a sale pushing
`balance + totalAmount` past `creditLimit` with the transaction
aborted, and otherwise increments the balance by exactly the sale
amount. -/
theorem C7_credit_limit_amended :
    (∀ (db : ClientsDB) (clientId fuelTypeId : Nat)
        (litres pricePerLitre totalAmount : ℚ) (date : Nat) (client : Client),
      db.clients.find? (fun cl => cl.id == clientId) = some client →
      (postCredits db clientId fuelTypeId litres pricePerLitre totalAmount date).1.clients
          = db.clients
        ∧ (postCredits db clientId fuelTypeId litres pricePerLitre totalAmount date).2
          = PostCreditsResult.created db.nextCreditId)
    ∧ (∀ (db : SalesDB) (tankId : Nat) (litres : ℚ) (cid now : Nat)
        (tank : Tank) (price : Price) (client : Client),
      tankId ≠ 0 → 0 < litres →
      db.tanks.find? (fun t => t.id == tankId) = some tank →
      litres ≤ tank.currentLevel →
      db.prices.find? (fun p => p.fuelTypeId == tank.fuelTypeId && p.isActive) = some price →
      db.clients.find? (fun cl => cl.id == cid) = some client →
      ((client.creditLimit < client.balance + litres * price.perLitre →
          postSale db tankId litres (r"CREDIT") (some cid) now
            = (db, SaleResult.txError (r"Credit limit exceeded")))
        ∧ (¬(client.creditLimit < client.balance + litres * price.perLitre) →
            (postSale db tankId litres (r"CREDIT") (some cid) now).1.clients
              = db.clients.map (fun cl =>
                  if cl.id == client.id then
                    { cl with balance := client.balance + litres * price.perLitre }
                  else cl)
            ∧ (postSale db tankId litres (r"CREDIT") (some cid) now).2 = SaleResult.ok))) := by
  constructor
  · intro db clientId fuelTypeId litres pricePerLitre totalAmount date client hfind
    constructor
    · simp [postCredits, hfind]
    · simp [postCredits, hfind]
  · intro db tankId litres cid now tank price client h0 hpos htank hlev hprice hclient
    have hbad : ¬(tankId = 0 ∨ litres ≤ 0) := by
      push_neg
      exact ⟨h0, hpos⟩
    have hvalid : (validateSale (Except.ok (some tank)) litres).isValid = true := by
      simp only [validateSale]
      rw [if_neg (not_le.mpr hpos)]
      rw [if_neg (not_lt.mpr hlev)]
    have hnotlt : ¬(tank.currentLevel < litres) := not_lt.mpr hlev
    constructor
    · intro hover
      simp [postSale, hbad, htank, hprice, hclient, hvalid, hnotlt, hover]
    · intro hunder
      constructor
      · simp [postSale, hbad, htank, hprice, hclient, hvalid, hnotlt, hunder]
      · simp [postSale, hbad, htank, hprice, hclient, hvalid, hnotlt, hunder]

namespace FuelStation

/-- Tank of the credit-limit sales scenario. -/
def sTank : Tank :=
  { id := 1, name := r"S", capacityLit := 1000, currentLevel := 100,
    avgUnitCost := 5, fuelTypeId := 1, isActive := true }

/-- Active price of the credit-limit sales scenario. -/
def sPrice : Price :=
  { id := 1, fuelTypeId := 1, perLitre := 10, isActive := true, createdAt := 0 }

/-- Sales database of the credit-limit scenario. -/
def sDB : SalesDB :=
  { tanks := [sTank], prices := [sPrice], clients := [kClient],
    credits := [], sales := [], nextCreditId := 1, nextSaleId := 1 }

end FuelStation

open FuelStation in
/-- C7 amended witness: on the concrete databases, the mounted credits
endpoint leaves the client list unchanged, and the sales-router CREDIT
branch rejects a 2-litre sale at 10 per litre (balance 90 + 20 > limit
100) with the state unchanged. -/
theorem C7_credit_limit_amended_witness :
    ((postCredits kDB 1 1 5 10 50 0).1.clients = kDB.clients
      ∧ (postCredits kDB 1 1 5 10 50 0).2 = PostCreditsResult.created kDB.nextCreditId)
    ∧ postSale sDB 1 2 (r"CREDIT") (some 1) 0
        = (sDB, SaleResult.txError (r"Credit limit exceeded")) :=
  ⟨C7_credit_limit_amended.1 kDB 1 1 5 10 50 0 kClient rfl,
   (C7_credit_limit_amended.2 sDB 1 2 1 0 sTank sPrice kClient
      (by decide) (by decide) rfl (by decide) rfl rfl).1
     (by norm_num [kClient, sPrice])⟩

namespace FuelStation

/-- Unpaid credit of the mark-paid scenario. -/
def mCredit : ClientCredit :=
  { id := 1, clientId := 1, fuelTypeId := 1, litres := 4, pricePerLitre := 10,
    totalAmount := 40, status := r"unpaid", paymentMethod := none,
    paidDate := none, date := 0 }

/-- Database of the mark-paid scenario: one client with balance 100
and one unpaid credit of 40. -/
def mDB : ClientsDB :=
  { clients := [{ id := 1, name := r"M", creditLimit := 500, balance := 100 }],
    credits := [mCredit], nextCreditId := 2 }

end FuelStation

open FuelStation in
/-- C8 counterexample: marking the 40-rupee credit paid by UPI
succeeds, sets status and paidDate, but leaves the client's balance at
100 instead of decrementing it to 60 — the claimed balance decrement
does not happen. -/
theorem C8_mark_paid_counterexample :
    (markPaid mDB 1 (some (r"UPI")) 5).2 = MarkPaidResult.ok
    ∧ (markPaid mDB 1 (some (r"UPI")) 5).1.clients = mDB.clients
    ∧ (markPaid mDB 1 (some (r"UPI")) 5).1.credits.map (fun cr => cr.status) = [r"paid"]
    ∧ (markPaid mDB 1 (some (r"UPI")) 5).1.credits.map (fun cr => cr.paidDate) = [some 5]
    ∧ mCredit.totalAmount ≠ 0 :=
  ⟨rfl, rfl, rfl, rfl, by norm_num [mCredit]⟩

open FuelStation in
/-- C8 amended: `mark-paid` (the mounted handler) rejects a missing
payment method or one outside UPI/Worker/Owner with the state
unchanged; with a valid method and an existing credit it succeeds,
setting `status = "paid"`, `paidDate` and the method on that row (so
re-marking can only keep the status "paid": the unpaid-to-paid
transition happens at most once), and it leaves every client's
balance unchanged. -/
theorem C8_mark_paid_amended :
    (∀ (db : ClientsDB) (id now : Nat),
        markPaid db id none now = (db, MarkPaidResult.badRequest))
    ∧ (∀ (db : ClientsDB) (id now : Nat) (m : String),
        [r"UPI", r"Worker", r"Owner"].contains m = false →
        markPaid db id (some m) now = (db, MarkPaidResult.badRequest))
    ∧ (∀ (db : ClientsDB) (id now : Nat) (m : String) (credit : ClientCredit),
        [r"UPI", r"Worker", r"Owner"].contains m = true →
        db.credits.find? (fun cr => cr.id == id) = some credit →
        (markPaid db id (some m) now).2 = MarkPaidResult.ok
        ∧ (markPaid db id (some m) now).1.clients = db.clients
        ∧ (markPaid db id (some m) now).1.credits.find? (fun cr => cr.id == id)
            = some { credit with
                status := r"paid", paidDate := some now, paymentMethod := some m }) := by
  refine ⟨?_, ?_, ?_⟩
  · intro db id now
    rfl
  · intro db id now m hm
    simp only [markPaid]
    rw [if_pos hm]
  · intro db id now m credit hm hfind
    have hm2 : ¬([r"UPI", r"Worker", r"Owner"].contains m = false) := by
      rw [hm]
      simp
    have hres : markPaid db id (some m) now
        = ({ db with
              credits := db.credits.map (fun cr =>
                if cr.id == id then
                  { cr with
                      status := r"paid", paidDate := some now, paymentMethod := some m }
                else cr) }, MarkPaidResult.ok) := by
      simp only [markPaid]
      rw [if_neg hm2, hfind]
    refine ⟨?_, ?_, ?_⟩
    · rw [hres]
    · rw [hres]
    · rw [hres]
      dsimp only
      rw [find?_map_update (fun cr : ClientCredit => cr.id)
        (fun cr => { cr with
          status := r"paid", paidDate := some now, paymentMethod := some m })
        (fun _ => rfl) id db.credits, hfind]
      rfl

open FuelStation in
/-- C8 amended witness: on the concrete database, a CASH method is
rejected with the state unchanged, and marking the credit paid by UPI
succeeds, stamps the row, and leaves the client list unchanged. -/
theorem C8_mark_paid_amended_witness :
    markPaid mDB 1 (some (r"CASH")) 5 = (mDB, MarkPaidResult.badRequest)
    ∧ ((markPaid mDB 1 (some (r"UPI")) 5).2 = MarkPaidResult.ok
      ∧ (markPaid mDB 1 (some (r"UPI")) 5).1.clients = mDB.clients
      ∧ (markPaid mDB 1 (some (r"UPI")) 5).1.credits.find? (fun cr => cr.id == 1)
          = some { mCredit with
              status := r"paid", paidDate := some 5, paymentMethod := some (r"UPI") }) :=
  ⟨C8_mark_paid_amended.2.1 mDB 1 5 (r"CASH") (by decide),
   C8_mark_paid_amended.2.2 mDB 1 5 (r"UPI") mCredit (by decide) rfl⟩
